import Mathlib

/-!
Verification development for the road-monitoring backend (`web_v2`).

The Python sources are shallowly embedded:
* float arithmetic is modelled over `ℝ` (exact real arithmetic), and purely
  rational computations (timestamps, thresholds, severities) over `ℚ`;
* `str(int)` / `int(str)` / `str.split(sep)` are modelled over `List Char`
  (ASCII fragment of Python semantics);
* the SQL aggregation of `update_tile_aggregate` is modelled as a pure
  function over an in-memory list of event rows (`numeric` is exact, so `ℚ`).
-/

namespace PyStr

/-- ASCII whitespace accepted (and stripped) by Python's `int(str)`. -/
def isAsciiWs (c : Char) : Bool :=
  c = ' ' || c = '\t' || c = '\n' || c = '\r' || c = Char.ofNat 11 || c = Char.ofNat 12

/-- Numeric value of a decimal digit character. -/
def digitVal (c : Char) : ℕ := c.toNat - 48

/-- Value of a list of decimal digit characters, most significant first. -/
def digitsToNat (l : List Char) : ℕ := l.foldl (fun a c => 10 * a + digitVal c) 0

/-- Decimal digit characters of a natural number, as produced by Python's
`str` on a non-negative integer (no sign, no leading zeros except `"0"`). -/
def natToDigits (n : ℕ) : List Char :=
  if h : n < 10 then [Char.ofNat (48 + n)]
  else natToDigits (n / 10) ++ [Char.ofNat (48 + n % 10)]
termination_by n
decreasing_by exact Nat.div_lt_self (by omega) (by omega)

/-- Characters of Python's `str` on an `int`. -/
def intChars (n : ℤ) : List Char :=
  if n < 0 then '-' :: natToDigits n.natAbs else natToDigits n.natAbs

/-- Strip ASCII whitespace from both ends, as Python's `int(str)` does. -/
def stripWs (l : List Char) : List Char :=
  ((l.dropWhile isAsciiWs).reverse.dropWhile isAsciiWs).reverse

/-- The sign-and-digits phase of Python's `int(str)`, applied after the
surrounding whitespace has been stripped. -/
def pyIntAfterStrip : List Char → Option ℤ
  | [] => none
  | c :: rest =>
    if c = '-' then
      if rest ≠ [] ∧ rest.all Char.isDigit then some (-(digitsToNat rest : ℤ)) else none
    else if c = '+' then
      if rest ≠ [] ∧ rest.all Char.isDigit then some ((digitsToNat rest : ℤ)) else none
    else if (c :: rest).all Char.isDigit then some ((digitsToNat (c :: rest) : ℤ)) else none

/-- Model of Python's `int(str)` on the ASCII fragment: strip surrounding
whitespace, then an optional sign followed by one or more decimal digits.
Returns `none` where CPython raises `ValueError`. -/
def pyIntCore (l : List Char) : Option ℤ := pyIntAfterStrip (stripWs l)

/-- Skip one optional leading sign character. -/
def pyLitSign : List Char → List Char
  | [] => []
  | c :: r => if c = '-' ∨ c = '+' then r else c :: r

/-- A nonempty digit run followed only by whitespace. -/
def pyLitBody (l2 : List Char) : Bool :=
  !(l2.takeWhile Char.isDigit).isEmpty && (l2.dropWhile Char.isDigit).all isAsciiWs

/-- Independent acceptor for the strings Python's `int` accepts (ASCII):
optional leading whitespace, optional sign, a nonempty digit run, then only
whitespace to the end.  Written as a sequential grammar, to be compared with
the strip-based `pyIntCore`. -/
def isPyIntLit (l : List Char) : Bool :=
  pyLitBody (pyLitSign (l.dropWhile isAsciiWs))

/-- Canonical `<int>` numeral: optional minus sign followed by digits,
nothing else (the literal shape `T_<int>_<int>` of the spec). -/
def isIntNumeral (l : List Char) : Bool :=
  match l with
  | '-' :: rest => !rest.isEmpty && rest.all Char.isDigit
  | _ => !l.isEmpty && l.all Char.isDigit

/-- Model of Python's `str.split(sep)` for a single-character separator. -/
def splitCh (sep : Char) : List Char → List (List Char)
  | [] => [[]]
  | c :: cs =>
    let r := splitCh sep cs
    if c = sep then [] :: r
    else
      match r with
      | [] => [[c]]
      | h :: t => (c :: h) :: t

theorem digitsToNat_append (a : List Char) (c : Char) :
    digitsToNat (a ++ [c]) = 10 * digitsToNat a + digitVal c := by
  simp [digitsToNat, List.foldl_append]

theorem natToDigits_spec (n : ℕ) :
    digitsToNat (natToDigits n) = n ∧ natToDigits n ≠ [] ∧
      (natToDigits n).all Char.isDigit = true := by
  induction n using Nat.strong_induction_on with
  | _ n ih =>
    by_cases h : n < 10
    · rw [natToDigits, dif_pos h]
      interval_cases n <;> decide
    · rw [natToDigits, dif_neg h]
      have hlt : n / 10 < n := Nat.div_lt_self (by omega) (by omega)
      obtain ⟨h1, h2, h3⟩ := ih (n / 10) hlt
      refine ⟨?_, by simp, ?_⟩
      · rw [digitsToNat_append, h1]
        have hm : n % 10 < 10 := Nat.mod_lt _ (by omega)
        have hd : digitVal (Char.ofNat (48 + n % 10)) = n % 10 := by
          set m := n % 10 with hm'
          interval_cases m <;> decide
        rw [hd]
        omega
      · have hm : n % 10 < 10 := Nat.mod_lt _ (by omega)
        have hd : (Char.ofNat (48 + n % 10)).isDigit = true := by
          set m := n % 10 with hm'
          interval_cases m <;> decide
        simp [List.all_append, h3, hd]

theorem isDigit_not_ws {c : Char} (h : c.isDigit = true) : isAsciiWs c = false := by
  by_contra hw
  simp only [Bool.not_eq_false] at hw
  simp only [isAsciiWs, Bool.or_eq_true, decide_eq_true_eq] at hw
  rcases hw with ((((h1 | h1) | h1) | h1) | h1) | h1 <;> subst h1 <;> revert h <;> decide

theorem isDigit_ne_dash {c : Char} (h : c.isDigit = true) : c ≠ '-' := by
  intro hc; subst hc; revert h; decide

theorem isDigit_ne_plus {c : Char} (h : c.isDigit = true) : c ≠ '+' := by
  intro hc; subst hc; revert h; decide

theorem dropWhile_eq_self_of_head {p : Char → Bool} :
    ∀ {l : List Char}, (∀ c ∈ l.take 1, p c = false) → l.dropWhile p = l
  | [], _ => rfl
  | c :: cs, h => by
    have hc : p c = false := h c (by simp)
    simp [List.dropWhile_cons, hc]

theorem stripWs_eq_self {l : List Char} (h : ∀ c ∈ l, isAsciiWs c = false) :
    stripWs l = l := by
  unfold stripWs
  rw [dropWhile_eq_self_of_head (fun c hc => h c (List.mem_of_mem_take hc))]
  rw [dropWhile_eq_self_of_head (fun c hc => h c (List.mem_reverse.mp (List.mem_of_mem_take hc)))]
  exact List.reverse_reverse l

theorem natToDigits_not_ws (m : ℕ) : ∀ c ∈ natToDigits m, isAsciiWs c = false := by
  intro c hc
  exact isDigit_not_ws ((List.all_eq_true.mp (natToDigits_spec m).2.2) c hc)

theorem intChars_no_ws (n : ℤ) : ∀ c ∈ intChars n, isAsciiWs c = false := by
  intro c hc
  by_cases hn : n < 0
  · rw [intChars, if_pos hn, List.mem_cons] at hc
    rcases hc with hc | hc
    · subst hc; decide
    · exact natToDigits_not_ws n.natAbs c hc
  · rw [intChars, if_neg hn] at hc
    exact natToDigits_not_ws n.natAbs c hc

theorem pyIntCore_intChars (n : ℤ) : pyIntCore (intChars n) = some n := by
  obtain ⟨h1, h2, h3⟩ := natToDigits_spec n.natAbs
  unfold pyIntCore
  rw [stripWs_eq_self (intChars_no_ws n)]
  by_cases hn : n < 0
  · rw [intChars, if_pos hn]
    rw [pyIntAfterStrip, if_pos rfl, if_pos ⟨h2, h3⟩, h1]
    simp only [Option.some.injEq]
    omega
  · rw [intChars, if_neg hn]
    obtain ⟨c, rest, hcr⟩ : ∃ c rest, natToDigits n.natAbs = c :: rest := by
      cases hd : natToDigits n.natAbs with
      | nil => exact absurd hd h2
      | cons c rest => exact ⟨c, rest, rfl⟩
    rw [hcr]
    have hcd : c.isDigit = true := List.all_eq_true.mp h3 c (by rw [hcr]; simp)
    rw [pyIntAfterStrip, if_neg (isDigit_ne_dash hcd), if_neg (isDigit_ne_plus hcd)]
    rw [if_pos (by rw [← hcr]; exact h3)]
    rw [← hcr, h1]
    simp only [Option.some.injEq]
    omega

/-- Strip trailing characters satisfying `isAsciiWs`. -/
def stripTrail (m : List Char) : List Char := (m.reverse.dropWhile isAsciiWs).reverse

theorem stripWs_eq_stripTrail (l : List Char) :
    stripWs l = stripTrail (l.dropWhile isAsciiWs) := rfl

theorem dropWhile_append_char (p : Char → Bool) (a b : List Char) :
    (a ++ b).dropWhile p =
      if (a.dropWhile p).isEmpty then b.dropWhile p else a.dropWhile p ++ b := by
  induction a with
  | nil => simp
  | cons c a ih =>
    by_cases hc : p c
    · simpa [List.dropWhile_cons, hc] using ih
    · simp [List.dropWhile_cons, hc]

theorem stripTrail_nil : stripTrail [] = [] := rfl

theorem stripTrail_eq_nil_iff (m : List Char) :
    stripTrail m = [] ↔ m.all isAsciiWs = true := by
  unfold stripTrail
  rw [List.reverse_eq_nil_iff, List.dropWhile_eq_nil_iff]
  simp [List.all_eq_true]

theorem stripTrail_cons {c : Char} {m : List Char}
    (h : isAsciiWs c = false ∨ ¬ m.all isAsciiWs = true) :
    stripTrail (c :: m) = c :: stripTrail m := by
  unfold stripTrail
  rw [List.reverse_cons, dropWhile_append_char]
  by_cases he : (m.reverse.dropWhile isAsciiWs).isEmpty
  · have hmws : m.all isAsciiWs = true := by
      rw [List.isEmpty_iff] at he
      rw [List.dropWhile_eq_nil_iff] at he
      simp only [List.mem_reverse] at he
      exact List.all_eq_true.mpr (fun c hc => he c hc)
    have hc : isAsciiWs c = false := h.resolve_right (fun hh => hh hmws)
    rw [if_pos he]
    rw [List.isEmpty_iff] at he
    rw [he]
    simp [List.dropWhile_cons, hc]
  · rw [if_neg he]
    simp

theorem stripTrail_all_digit (m : List Char) :
    (stripTrail m).all Char.isDigit = (m.dropWhile Char.isDigit).all isAsciiWs := by
  induction m with
  | nil => rfl
  | cons c m ih =>
    by_cases hd : c.isDigit
    · rw [stripTrail_cons (Or.inl (isDigit_not_ws hd))]
      simp only [List.all_cons, hd, Bool.true_and, List.dropWhile_cons, if_pos hd]
      exact ih
    · have hd' : c.isDigit = false := by simpa using hd
      by_cases hw : isAsciiWs c
      · by_cases hall : m.all isAsciiWs = true
        · have hcm : (c :: m).all isAsciiWs = true := by simp [List.all_cons, hw, hall]
          rw [(stripTrail_eq_nil_iff (c :: m)).mpr hcm]
          simp [List.dropWhile_cons, hd', List.all_cons, hw, hall]
        · rw [stripTrail_cons (Or.inr hall)]
          have hmf : m.all isAsciiWs = false := by simpa using hall
          simp [List.all_cons, hd', List.dropWhile_cons, hw, hmf]
      · have hw' : isAsciiWs c = false := by simpa using hw
        rw [stripTrail_cons (Or.inl hw')]
        simp [List.all_cons, hd', List.dropWhile_cons, hw']

theorem stripTrail_digit_iff (m : List Char) :
    (stripTrail m ≠ [] ∧ (stripTrail m).all Char.isDigit = true) ↔
      (m.takeWhile Char.isDigit ≠ [] ∧ (m.dropWhile Char.isDigit).all isAsciiWs = true) := by
  cases m with
  | nil => simp [stripTrail_nil]
  | cons c m =>
    by_cases hd : c.isDigit
    · have h1 : stripTrail (c :: m) = c :: stripTrail m :=
        stripTrail_cons (Or.inl (isDigit_not_ws hd))
      have h2 := stripTrail_all_digit (c :: m)
      rw [h1] at h2 ⊢
      simp only [List.takeWhile_cons, if_pos hd]
      constructor
      · rintro ⟨-, hb⟩
        exact ⟨by simp, by rw [← h2]; exact hb⟩
      · rintro ⟨-, hb⟩
        exact ⟨by simp, by rw [h2]; exact hb⟩
    · constructor
      · rintro ⟨hne, hb⟩
        exfalso
        by_cases hw : isAsciiWs c
        · by_cases hall : m.all isAsciiWs = true
          · exact hne ((stripTrail_eq_nil_iff (c :: m)).mpr (by simp [List.all_cons, hw, hall]))
          · rw [stripTrail_cons (Or.inr hall)] at hb
            simp only [List.all_cons, Bool.and_eq_true] at hb
            exact absurd hb.1 (by simpa using hd)
        · rw [stripTrail_cons (Or.inl (by simpa using hw))] at hb
          simp only [List.all_cons, Bool.and_eq_true] at hb
          exact absurd hb.1 (by simpa using hd)
      · rintro ⟨hne, -⟩
        exact absurd (by simp [List.takeWhile_cons, hd]) hne

theorem dropWhile_head_false {p : Char → Bool} :
    ∀ {l m : List Char} {c : Char}, l.dropWhile p = c :: m → p c = false := by
  intro l
  induction l with
  | nil => intro m c h; cases h
  | cons d l' ih =>
    intro m c h
    rw [List.dropWhile_cons] at h
    by_cases hd : p d
    · exact ih (by rwa [if_pos hd] at h)
    · rw [if_neg hd] at h
      cases h
      simpa using hd

theorem pyLitBody_iff (m : List Char) :
    pyLitBody m = true ↔
      (m.takeWhile Char.isDigit ≠ [] ∧ (m.dropWhile Char.isDigit).all isAsciiWs = true) := by
  unfold pyLitBody
  rw [Bool.and_eq_true, Bool.not_eq_true']
  constructor
  · rintro ⟨h1, h2⟩
    refine ⟨?_, h2⟩
    intro hne
    rw [hne] at h1
    simp at h1
  · rintro ⟨h1, h2⟩
    refine ⟨?_, h2⟩
    cases he : (m.takeWhile Char.isDigit).isEmpty
    · rfl
    · exact absurd (List.isEmpty_iff.mp he) h1

theorem pyIntCore_isSome_iff (l : List Char) :
    (pyIntCore l).isSome = true ↔ isPyIntLit l = true := by
  unfold pyIntCore isPyIntLit
  rw [stripWs_eq_stripTrail]
  cases hl1 : l.dropWhile isAsciiWs with
  | nil => simp [stripTrail_nil, pyIntAfterStrip, pyLitSign, pyLitBody]
  | cons c m =>
    rw [stripTrail_cons (Or.inl (dropWhile_head_false hl1))]
    rw [pyLitBody_iff]
    by_cases hdash : c = '-'
    · subst hdash
      have hps : pyLitSign ('-' :: m) = m := by
        rw [pyLitSign]; exact if_pos (Or.inl rfl)
      rw [hps, pyIntAfterStrip, if_pos rfl, ← stripTrail_digit_iff]
      by_cases hq : stripTrail m ≠ [] ∧ (stripTrail m).all Char.isDigit = true
      · rw [if_pos hq]
        simp only [Option.isSome_some, true_iff]
        exact hq
      · rw [if_neg hq]
        simp only [Option.isSome_none, Bool.false_eq_true, false_iff]
        exact hq
    · by_cases hplus : c = '+'
      · subst hplus
        have hps : pyLitSign ('+' :: m) = m := by
          rw [pyLitSign]; exact if_pos (Or.inr rfl)
        rw [hps, pyIntAfterStrip, if_neg (by decide), if_pos rfl, ← stripTrail_digit_iff]
        by_cases hq : stripTrail m ≠ [] ∧ (stripTrail m).all Char.isDigit = true
        · rw [if_pos hq]
          simp only [Option.isSome_some, true_iff]
          exact hq
        · rw [if_neg hq]
          simp only [Option.isSome_none, Bool.false_eq_true, false_iff]
          exact hq
      · have hps : pyLitSign (c :: m) = c :: m := by
          rw [pyLitSign]; exact if_neg (by simp [hdash, hplus])
        rw [hps, pyIntAfterStrip, if_neg hdash, if_neg hplus]
        by_cases hd : c.isDigit
        · have h2 := stripTrail_all_digit m
          have htw : List.takeWhile Char.isDigit (c :: m) = c :: List.takeWhile Char.isDigit m := by
            rw [List.takeWhile_cons, if_pos hd]
          have hdw : List.dropWhile Char.isDigit (c :: m) = List.dropWhile Char.isDigit m := by
            rw [List.dropWhile_cons, if_pos hd]
          have hall : (c :: stripTrail m).all Char.isDigit = (stripTrail m).all Char.isDigit := by
            simp [List.all_cons, hd]
          rw [htw, hdw, hall]
          by_cases hq : (stripTrail m).all Char.isDigit = true
          · rw [if_pos hq]
            simp only [Option.isSome_some, true_iff]
            exact ⟨by simp, by rw [← h2]; exact hq⟩
          · rw [if_neg hq]
            simp only [Option.isSome_none, Bool.false_eq_true, false_iff, not_and]
            intro _
            rw [← h2]
            simpa using hq
        · have hd' : c.isDigit = false := by simpa using hd
          simp [List.all_cons, hd', List.takeWhile_cons]

theorem splitCh_no_sep {sep : Char} :
    ∀ {l : List Char}, (∀ c ∈ l, c ≠ sep) → splitCh sep l = [l] := by
  intro l
  induction l with
  | nil => intro _; rfl
  | cons c cs ih =>
    intro h
    have hc : ¬ c = sep := h c (by simp)
    rw [splitCh]
    simp only [if_neg hc]
    rw [ih (fun x hx => h x (by simp [hx]))]

theorem splitCh_append {sep : Char} {xs rest : List Char} (h : ∀ c ∈ xs, c ≠ sep) :
    splitCh sep (xs ++ sep :: rest) = xs :: splitCh sep rest := by
  induction xs with
  | nil =>
    rw [List.nil_append, splitCh]
    simp
  | cons c cs ih =>
    have hc : ¬ c = sep := h c (by simp)
    rw [List.cons_append, splitCh]
    simp only [if_neg hc]
    rw [ih (fun x hx => h x (by simp [hx]))]

theorem intChars_ne_underscore (n : ℤ) : ∀ c ∈ intChars n, c ≠ '_' := by
  intro c hc
  by_cases hn : n < 0
  · rw [intChars, if_pos hn, List.mem_cons] at hc
    rcases hc with hc | hc
    · subst hc; decide
    · have hd := List.all_eq_true.mp (natToDigits_spec n.natAbs).2.2 c hc
      intro he; subst he; revert hd; decide
  · rw [intChars, if_neg hn] at hc
    have hd := List.all_eq_true.mp (natToDigits_spec n.natAbs).2.2 c hc
    intro he; subst he; revert hd; decide

/-- Characters of the tile id string `f"T_{a}_{b}"`. -/
def tileIdChars (a b : ℤ) : List Char :=
  'T' :: '_' :: (intChars a ++ '_' :: intChars b)

/-- The tile id string produced by `lat_lon_to_tile_id`: `f"T_{a}_{b}"`. -/
def renderTileId (a b : ℤ) : String := ⟨tileIdChars a b⟩

/-- Pair up two parsed indices; `none` if either failed. -/
def pairIdx : Option ℤ → Option ℤ → Option (ℤ × ℤ)
  | some a, some b => some (a, b)
  | _, _ => none

/-- Three-part check of the tile id parsers: exactly three parts, first `"T"`. -/
def parseParts : List (List Char) → Option (ℤ × ℤ)
  | [t, p1, p2] => if t = ['T'] then pairIdx (pyIntCore p1) (pyIntCore p2) else none
  | _ => none

/-- The parsing phase shared by `tile_id_to_center`, `get_tile_bounds` and
`parse_tile_id`: split on `'_'`, require exactly three parts with head `"T"`,
and convert the two index parts with Python's `int`.  `none` models the
raised `ValueError`. -/
def parseTileId (s : String) : Option (ℤ × ℤ) := parseParts (splitCh '_' s.data)

/-- Part-level acceptor corresponding to `parseParts` with `isPyIntLit` parts. -/
def pyShapeParts : List (List Char) → Bool
  | [t, p1, p2] => if t = ['T'] then isPyIntLit p1 && isPyIntLit p2 else false
  | _ => false

/-- Acceptor for the tile id shapes Python's parser accepts: exactly three
`'_'`-separated parts, the first `"T"`, the other two accepted by `int()`. -/
def pyTileShape (s : String) : Bool := pyShapeParts (splitCh '_' s.data)

/-- Part-level acceptor with canonical numeral parts. -/
def specShapeParts : List (List Char) → Bool
  | [t, p1, p2] => if t = ['T'] then isIntNumeral p1 && isIntNumeral p2 else false
  | _ => false

/-- Acceptor for the literal spec shape `T_<int>_<int>`: exactly three
`'_'`-separated parts, the first `"T"`, the other two canonical signed
decimal numerals (no whitespace, no plus sign). -/
def specTileShape (s : String) : Bool := specShapeParts (splitCh '_' s.data)

theorem splitCh_tileIdChars (a b : ℤ) :
    splitCh '_' (tileIdChars a b) = [['T'], intChars a, intChars b] := by
  unfold tileIdChars
  have h1 : ('T' : Char) :: '_' :: (intChars a ++ '_' :: intChars b)
      = ['T'] ++ '_' :: (intChars a ++ '_' :: intChars b) := rfl
  rw [h1, splitCh_append (by intro c hc; simp at hc; subst hc; decide)]
  rw [splitCh_append (intChars_ne_underscore a)]
  rw [splitCh_no_sep (intChars_ne_underscore b)]

theorem parseTileId_render (a b : ℤ) : parseTileId (renderTileId a b) = some (a, b) := by
  unfold parseTileId renderTileId
  have hd : (String.mk (tileIdChars a b)).data = tileIdChars a b := rfl
  rw [hd, splitCh_tileIdChars]
  simp [parseParts, pairIdx, pyIntCore_intChars]

theorem isSome_pairIdx (o1 o2 : Option ℤ) :
    (pairIdx o1 o2).isSome = (o1.isSome && o2.isSome) := by
  cases o1 <;> cases o2 <;> rfl

theorem parseTileId_isSome_iff (s : String) :
    (parseTileId s).isSome = true ↔ pyTileShape s = true := by
  unfold parseTileId pyTileShape
  cases hsp : splitCh '_' s.data with
  | nil => simp [parseParts, pyShapeParts]
  | cons t rest =>
    cases rest with
    | nil => simp [parseParts, pyShapeParts]
    | cons p1 rest2 =>
      cases rest2 with
      | nil => simp [parseParts, pyShapeParts]
      | cons p2 rest3 =>
        cases rest3 with
        | nil =>
          rw [parseParts, pyShapeParts]
          by_cases ht : t = ['T']
          · rw [if_pos ht, if_pos ht, isSome_pairIdx]
            rw [Bool.and_eq_true, Bool.and_eq_true]
            rw [pyIntCore_isSome_iff, pyIntCore_isSome_iff]
          · rw [if_neg ht, if_neg ht]
            simp
        | cons p3 rest4 => simp [parseParts, pyShapeParts]

end PyStr

namespace Tiles

/-- `KM_TO_DEG_LAT = 0.009` from `app/utils/tiles.py`. -/
def KM_TO_DEG_LAT : ℝ := 0.009

/-- `math.radians`. -/
noncomputable def radians (d : ℝ) : ℝ := d * Real.pi / 180

/-- The latitude-dependent longitude cell width
`KM_TO_DEG_LAT / max(cos(radians(lat)), 0.01)`. -/
noncomputable def kmToDegLon (lat : ℝ) : ℝ :=
  KM_TO_DEG_LAT / max (Real.cos (radians lat)) 0.01

/-- The integer grid indices computed by `lat_lon_to_tile_id`. -/
noncomputable def latLonToTileIdx (lat lon : ℝ) : ℤ × ℤ :=
  (⌊lat / KM_TO_DEG_LAT⌋, ⌊lon / kmToDegLon lat⌋)

/-- `lat_lon_to_tile_id(lat, lon)`: grid indices rendered as `f"T_{i}_{j}"`. -/
noncomputable def lat_lon_to_tile_id (lat lon : ℝ) : String :=
  PyStr.renderTileId (latLonToTileIdx lat lon).1 (latLonToTileIdx lat lon).2

/-- Center coordinates computed by `tile_id_to_center` from parsed indices. -/
noncomputable def centerOfIdx (a b : ℤ) : ℝ × ℝ :=
  let center_lat := ((a : ℝ) + 0.5) * KM_TO_DEG_LAT
  (center_lat, ((b : ℝ) + 0.5) * kmToDegLon center_lat)

/-- `tile_id_to_center(tile_id)`; `none` models the raised `ValueError`. -/
noncomputable def tile_id_to_center (s : String) : Option (ℝ × ℝ) :=
  (PyStr.parseTileId s).map fun p => centerOfIdx p.1 p.2

/-- The `TileBounds` dataclass. -/
structure TileBounds where
  tile_id : String
  min_lat : ℝ
  max_lat : ℝ
  min_lon : ℝ
  max_lon : ℝ
  center_lat : ℝ
  center_lon : ℝ

/-- Bounds computed by `get_tile_bounds` from parsed indices. -/
noncomputable def boundsOfIdx (s : String) (a b : ℤ) : TileBounds :=
  let min_lat := (a : ℝ) * KM_TO_DEG_LAT
  let max_lat := ((a : ℝ) + 1) * KM_TO_DEG_LAT
  let center_lat := (min_lat + max_lat) / 2
  let km_to_deg_lon := kmToDegLon center_lat
  let min_lon := (b : ℝ) * km_to_deg_lon
  let max_lon := ((b : ℝ) + 1) * km_to_deg_lon
  ⟨s, min_lat, max_lat, min_lon, max_lon, center_lat, (min_lon + max_lon) / 2⟩

/-- `get_tile_bounds(tile_id)`; `none` models the raised `ValueError`. -/
noncomputable def get_tile_bounds (s : String) : Option TileBounds :=
  (PyStr.parseTileId s).map fun p => boundsOfIdx s p.1 p.2

/-- Python's `range(a, b + 1)` over integers. -/
def pyRangeIncl (a b : ℤ) : List ℤ :=
  (List.range (b + 1 - a).toNat).map fun (k : ℕ) => a + (k : ℤ)

/-- `get_tiles_in_viewport(min_lat, max_lat, min_lon, max_lon)`. -/
noncomputable def get_tiles_in_viewport (min_lat max_lat min_lon max_lon : ℝ) : List String :=
  let min_lat_idx := ⌊min_lat / KM_TO_DEG_LAT⌋
  let max_lat_idx := ⌈max_lat / KM_TO_DEG_LAT⌉
  let center_lat := (min_lat + max_lat) / 2
  let km_to_deg_lon := kmToDegLon center_lat
  let min_lon_idx := ⌊min_lon / km_to_deg_lon⌋
  let max_lon_idx := ⌈max_lon / km_to_deg_lon⌉
  (pyRangeIncl min_lat_idx max_lat_idx).flatMap fun i =>
    (pyRangeIncl min_lon_idx max_lon_idx).map fun j => PyStr.renderTileId i j

theorem KM_pos : (0 : ℝ) < KM_TO_DEG_LAT := by norm_num [KM_TO_DEG_LAT]

theorem kmToDegLon_pos (lat : ℝ) : 0 < kmToDegLon lat :=
  div_pos KM_pos (lt_of_lt_of_le (by norm_num) (le_max_right _ _))

theorem floor_intCast_add_half (n : ℤ) : ⌊(n : ℝ) + 0.5⌋ = n := by
  rw [Int.floor_eq_iff]
  constructor <;> push_cast <;> norm_num

theorem tile_id_to_center_render (a b : ℤ) :
    tile_id_to_center (PyStr.renderTileId a b) = some (centerOfIdx a b) := by
  rw [tile_id_to_center, PyStr.parseTileId_render]
  rfl

theorem get_tile_bounds_render (a b : ℤ) :
    get_tile_bounds (PyStr.renderTileId a b) =
      some (boundsOfIdx (PyStr.renderTileId a b) a b) := by
  rw [get_tile_bounds, PyStr.parseTileId_render]
  rfl

theorem latLonToTileIdx_center (a b : ℤ) :
    latLonToTileIdx (centerOfIdx a b).1 (centerOfIdx a b).2 = (a, b) := by
  unfold centerOfIdx latLonToTileIdx
  simp only [Prod.mk.injEq]
  constructor
  · rw [mul_div_cancel_right₀ _ (ne_of_gt KM_pos)]
    exact floor_intCast_add_half a
  · rw [mul_div_cancel_right₀ _ (ne_of_gt (kmToDegLon_pos _))]
    exact floor_intCast_add_half b

theorem boundsOfIdx_min_lat (s : String) (a b : ℤ) :
    (boundsOfIdx s a b).min_lat = (a : ℝ) * KM_TO_DEG_LAT := rfl

theorem boundsOfIdx_max_lat (s : String) (a b : ℤ) :
    (boundsOfIdx s a b).max_lat = ((a : ℝ) + 1) * KM_TO_DEG_LAT := rfl

theorem boundsOfIdx_center_lat (s : String) (a b : ℤ) :
    (boundsOfIdx s a b).center_lat =
      ((a : ℝ) * KM_TO_DEG_LAT + ((a : ℝ) + 1) * KM_TO_DEG_LAT) / 2 := rfl

theorem boundsOfIdx_min_lon (s : String) (a b : ℤ) :
    (boundsOfIdx s a b).min_lon =
      (b : ℝ) * kmToDegLon (((a : ℝ) * KM_TO_DEG_LAT + ((a : ℝ) + 1) * KM_TO_DEG_LAT) / 2) := rfl

theorem boundsOfIdx_max_lon (s : String) (a b : ℤ) :
    (boundsOfIdx s a b).max_lon =
      ((b : ℝ) + 1) *
        kmToDegLon (((a : ℝ) * KM_TO_DEG_LAT + ((a : ℝ) + 1) * KM_TO_DEG_LAT) / 2) := rfl

theorem center_lat_arg_eq (a : ℤ) :
    ((a : ℝ) * KM_TO_DEG_LAT + ((a : ℝ) + 1) * KM_TO_DEG_LAT) / 2 =
      ((a : ℝ) + 0.5) * KM_TO_DEG_LAT := by ring

theorem tile_id_to_center_isSome (s : String) :
    (tile_id_to_center s).isSome = (PyStr.parseTileId s).isSome := by
  rw [tile_id_to_center]
  cases PyStr.parseTileId s <;> rfl

end Tiles

/-- **C2.**  For every coordinate pair, re-encoding the decoded center of the
encoded tile id yields the same tile id: the round trip
`lat_lon_to_tile_id ∘ tile_id_to_center ∘ lat_lon_to_tile_id` is idempotent at
cell granularity. -/
theorem C2_tile_roundtrip_cell_idempotent (lat lon : ℝ) :
    ∃ c : ℝ × ℝ, Tiles.tile_id_to_center (Tiles.lat_lon_to_tile_id lat lon) = some c ∧
      Tiles.lat_lon_to_tile_id c.1 c.2 = Tiles.lat_lon_to_tile_id lat lon := by
  refine ⟨Tiles.centerOfIdx (Tiles.latLonToTileIdx lat lon).1 (Tiles.latLonToTileIdx lat lon).2,
    ?_, ?_⟩
  · rw [Tiles.lat_lon_to_tile_id]
    exact Tiles.tile_id_to_center_render _ _
  · have h := Tiles.latLonToTileIdx_center (Tiles.latLonToTileIdx lat lon).1
      (Tiles.latLonToTileIdx lat lon).2
    rw [Tiles.lat_lon_to_tile_id, Tiles.lat_lon_to_tile_id, h]

/-- **C7.**  For `|lat| < 89`, the center returned by
`tile_id_to_center (lat_lon_to_tile_id lat lon)` lies inside the rectangle
returned by `get_tile_bounds` on the same tile id.  (The proof does not even
need the latitude restriction.) -/
theorem C7_tile_center_within_bounds (lat lon : ℝ) (h : |lat| < 89) :
    ∃ (c : ℝ × ℝ) (tb : Tiles.TileBounds),
      Tiles.tile_id_to_center (Tiles.lat_lon_to_tile_id lat lon) = some c ∧
      Tiles.get_tile_bounds (Tiles.lat_lon_to_tile_id lat lon) = some tb ∧
      tb.min_lat ≤ c.1 ∧ c.1 ≤ tb.max_lat ∧ tb.min_lon ≤ c.2 ∧ c.2 ≤ tb.max_lon := by
  set i := (Tiles.latLonToTileIdx lat lon).1 with hi
  set j := (Tiles.latLonToTileIdx lat lon).2 with hj
  refine ⟨Tiles.centerOfIdx i j, Tiles.boundsOfIdx (Tiles.lat_lon_to_tile_id lat lon) i j,
    ?_, ?_, ?_, ?_, ?_, ?_⟩
  · rw [Tiles.lat_lon_to_tile_id]
    exact Tiles.tile_id_to_center_render _ _
  · rw [Tiles.lat_lon_to_tile_id]
    exact Tiles.get_tile_bounds_render _ _
  · rw [Tiles.boundsOfIdx_min_lat]
    show (i : ℝ) * Tiles.KM_TO_DEG_LAT ≤ ((i : ℝ) + 0.5) * Tiles.KM_TO_DEG_LAT
    nlinarith [Tiles.KM_pos]
  · rw [Tiles.boundsOfIdx_max_lat]
    show ((i : ℝ) + 0.5) * Tiles.KM_TO_DEG_LAT ≤ ((i : ℝ) + 1) * Tiles.KM_TO_DEG_LAT
    nlinarith [Tiles.KM_pos]
  · rw [Tiles.boundsOfIdx_min_lon, Tiles.center_lat_arg_eq]
    show (j : ℝ) * Tiles.kmToDegLon (((i : ℝ) + 0.5) * Tiles.KM_TO_DEG_LAT) ≤
      ((j : ℝ) + 0.5) * Tiles.kmToDegLon (((i : ℝ) + 0.5) * Tiles.KM_TO_DEG_LAT)
    nlinarith [Tiles.kmToDegLon_pos (((i : ℝ) + 0.5) * Tiles.KM_TO_DEG_LAT)]
  · rw [Tiles.boundsOfIdx_max_lon, Tiles.center_lat_arg_eq]
    show ((j : ℝ) + 0.5) * Tiles.kmToDegLon (((i : ℝ) + 0.5) * Tiles.KM_TO_DEG_LAT) ≤
      ((j : ℝ) + 1) * Tiles.kmToDegLon (((i : ℝ) + 0.5) * Tiles.KM_TO_DEG_LAT)
    nlinarith [Tiles.kmToDegLon_pos (((i : ℝ) + 0.5) * Tiles.KM_TO_DEG_LAT)]

/-- Witness for C7 at the concrete point `(30, 0)`. -/
theorem C7_tile_center_within_bounds_witness :
    |(30 : ℝ)| < 89 ∧
      ∃ (c : ℝ × ℝ) (tb : Tiles.TileBounds),
        Tiles.tile_id_to_center (Tiles.lat_lon_to_tile_id 30 0) = some c ∧
        Tiles.get_tile_bounds (Tiles.lat_lon_to_tile_id 30 0) = some tb ∧
        tb.min_lat ≤ c.1 ∧ c.1 ≤ tb.max_lat ∧ tb.min_lon ≤ c.2 ∧ c.2 ≤ tb.max_lon :=
  ⟨by norm_num, C7_tile_center_within_bounds 30 0 (by norm_num)⟩

/-- **C9 (counterexample).**  `"T_ 1_2"` does not have the literal
`T_<int>_<int>` shape (its middle part is `" 1"`), yet `tile_id_to_center`
accepts it without error: Python's `int(" 1")` strips the blank.  So "raises
if and only if the id does not match `T_<int>_<int>`" fails. -/
theorem C9_counterexample_silent_coercion :
    (Tiles.tile_id_to_center ("T_ 1_2")).isSome = true ∧
      PyStr.specTileShape ("T_ 1_2") = false := by
  constructor
  · rw [Tiles.tile_id_to_center_isSome]
    decide
  · decide

/-- **C9 (amended).**  `tile_id_to_center` fails exactly on the ids rejected
by the Python-`int` shape `T_<int>_<int>` where each `<int>` may carry
surrounding ASCII whitespace and an optional `+`/`-` sign; every rendered id
`f"T_{a}_{b}"` is decoded without error. -/
theorem C9_tile_center_error_iff_py_shape :
    (∀ s : String, (Tiles.tile_id_to_center s).isSome = true ↔ PyStr.pyTileShape s = true) ∧
      (∀ a b : ℤ,
        Tiles.tile_id_to_center (PyStr.renderTileId a b) = some (Tiles.centerOfIdx a b)) := by
  constructor
  · intro s
    rw [Tiles.tile_id_to_center_isSome]
    exact PyStr.parseTileId_isSome_iff s
  · intro a b
    exact Tiles.tile_id_to_center_render a b

namespace Tiles

theorem pyRangeIncl_pair (a : ℤ) : pyRangeIncl a (a + 1) = [a, a + 1] := by
  unfold pyRangeIncl
  have h2 : (a + 1 + 1 - a).toNat = 2 := by omega
  rw [h2]
  simp [List.range_succ]

theorem floor_cell_lo (a : ℤ) (x : ℝ) (hx : x ≠ 0) : ⌊(a : ℝ) * x / x⌋ = a := by
  rw [mul_div_cancel_right₀ _ hx, Int.floor_intCast]

theorem ceil_cell_hi (a : ℤ) (x : ℝ) (hx : x ≠ 0) : ⌈((a : ℝ) + 1) * x / x⌉ = a + 1 := by
  rw [mul_div_cancel_right₀ _ hx]
  rw [show ((a : ℝ) + 1) = ((a + 1 : ℤ) : ℝ) by push_cast; ring]
  exact Int.ceil_intCast _

/-- `get_tiles_in_viewport` applied to the exact bounds of one grid cell
returns the 2×2 block of tiles whose lower-left member is that cell:
both `ceil(max_lat / K)` and `ceil(max_lon / cell)` land one past the cell. -/
theorem tiles_in_viewport_of_cell (s : String) (a b : ℤ) :
    get_tiles_in_viewport (boundsOfIdx s a b).min_lat (boundsOfIdx s a b).max_lat
        (boundsOfIdx s a b).min_lon (boundsOfIdx s a b).max_lon =
      [PyStr.renderTileId a b, PyStr.renderTileId a (b + 1),
       PyStr.renderTileId (a + 1) b, PyStr.renderTileId (a + 1) (b + 1)] := by
  rw [boundsOfIdx_min_lat, boundsOfIdx_max_lat, boundsOfIdx_min_lon, boundsOfIdx_max_lon]
  simp only [get_tiles_in_viewport]
  rw [floor_cell_lo a KM_TO_DEG_LAT (ne_of_gt KM_pos)]
  rw [ceil_cell_hi a KM_TO_DEG_LAT (ne_of_gt KM_pos)]
  rw [floor_cell_lo b _ (ne_of_gt (kmToDegLon_pos _))]
  rw [ceil_cell_hi b _ (ne_of_gt (kmToDegLon_pos _))]
  rw [pyRangeIncl_pair, pyRangeIncl_pair]
  rfl

end Tiles

/-- **C5 (counterexample).**  At the point `(0.0045, 0)` (tile `T_0_0`), the
viewport given by that tile's own bounds yields FOUR tile ids, not one: the
`ceil` on both upper bounds includes the neighbouring row and column. -/
theorem C5_counterexample_cell_box_four_tiles :
    ∃ tb : Tiles.TileBounds,
      Tiles.get_tile_bounds (Tiles.lat_lon_to_tile_id 0.0045 0) = some tb ∧
      (Tiles.get_tiles_in_viewport tb.min_lat tb.max_lat tb.min_lon tb.max_lon).length = 4 ∧
      Tiles.get_tiles_in_viewport tb.min_lat tb.max_lat tb.min_lon tb.max_lon ≠
        [Tiles.lat_lon_to_tile_id 0.0045 0] := by
  have hidx : Tiles.latLonToTileIdx 0.0045 0 = (0, 0) := by
    unfold Tiles.latLonToTileIdx
    rw [Prod.mk.injEq]
    constructor
    · rw [show (0.0045 : ℝ) / Tiles.KM_TO_DEG_LAT = 0.5 by
        rw [Tiles.KM_TO_DEG_LAT]; norm_num]
      rw [Int.floor_eq_iff] <;> norm_num
    · rw [zero_div]
      exact Int.floor_zero
  refine ⟨Tiles.boundsOfIdx (Tiles.lat_lon_to_tile_id 0.0045 0) 0 0, ?_, ?_, ?_⟩
  · rw [Tiles.lat_lon_to_tile_id, hidx]
    exact Tiles.get_tile_bounds_render 0 0
  · rw [Tiles.tiles_in_viewport_of_cell]
    rfl
  · rw [Tiles.tiles_in_viewport_of_cell]
    intro hcontra
    have hlen := congrArg List.length hcontra
    simp at hlen

/-- **C5 (amended).**  For every point, `get_tiles_in_viewport` applied to the
1×1 cell box of that point's tile returns exactly the four tile ids of the
2×2 block anchored at the cell, and the point's own tile id
(`lat_lon_to_tile_id`) is the first of them. -/
theorem C5_amended_viewport_cell_box (lat lon : ℝ) :
    ∃ tb : Tiles.TileBounds,
      Tiles.get_tile_bounds (Tiles.lat_lon_to_tile_id lat lon) = some tb ∧
      Tiles.get_tiles_in_viewport tb.min_lat tb.max_lat tb.min_lon tb.max_lon =
        [PyStr.renderTileId (Tiles.latLonToTileIdx lat lon).1 (Tiles.latLonToTileIdx lat lon).2,
         PyStr.renderTileId (Tiles.latLonToTileIdx lat lon).1
           ((Tiles.latLonToTileIdx lat lon).2 + 1),
         PyStr.renderTileId ((Tiles.latLonToTileIdx lat lon).1 + 1)
           (Tiles.latLonToTileIdx lat lon).2,
         PyStr.renderTileId ((Tiles.latLonToTileIdx lat lon).1 + 1)
           ((Tiles.latLonToTileIdx lat lon).2 + 1)] ∧
      Tiles.lat_lon_to_tile_id lat lon ∈
        Tiles.get_tiles_in_viewport tb.min_lat tb.max_lat tb.min_lon tb.max_lon := by
  refine ⟨Tiles.boundsOfIdx (Tiles.lat_lon_to_tile_id lat lon)
    (Tiles.latLonToTileIdx lat lon).1 (Tiles.latLonToTileIdx lat lon).2, ?_, ?_, ?_⟩
  · rw [Tiles.lat_lon_to_tile_id]
    exact Tiles.get_tile_bounds_render _ _
  · exact Tiles.tiles_in_viewport_of_cell _ _ _
  · rw [Tiles.tiles_in_viewport_of_cell, Tiles.lat_lon_to_tile_id]
    exact List.mem_cons_self _ _

theorem cos_quartic_lb {t lo hi L : ℝ} (hlo0 : 0 ≤ lo) (hlo : lo ≤ t) (hhi : t ≤ hi)
    (hhi1 : hi ≤ 1) (hL : L ≤ 1 - hi ^ 2 / 2 - hi ^ 4 * (5 / 96)) : L ≤ Real.cos t := by
  have ht0 : 0 ≤ t := hlo0.trans hlo
  have habs : |t| ≤ 1 := abs_le.mpr ⟨by linarith, hhi.trans hhi1⟩
  have hb := Real.cos_bound habs
  rw [abs_of_nonneg ht0] at hb
  obtain ⟨hb1, hb2⟩ := abs_le.mp hb
  have h2 : t ^ 2 ≤ hi ^ 2 := pow_le_pow_left ht0 hhi 2
  have h4 : t ^ 4 ≤ hi ^ 4 := pow_le_pow_left ht0 hhi 4
  linarith

theorem cos_quartic_ub {t lo hi U : ℝ} (hlo0 : 0 ≤ lo) (hlo : lo ≤ t) (hhi : t ≤ hi)
    (hhi1 : hi ≤ 1) (hU : 1 - lo ^ 2 / 2 + hi ^ 4 * (5 / 96) ≤ U) : Real.cos t ≤ U := by
  have ht0 : 0 ≤ t := hlo0.trans hlo
  have habs : |t| ≤ 1 := abs_le.mpr ⟨by linarith, hhi.trans hhi1⟩
  have hb := Real.cos_bound habs
  rw [abs_of_nonneg ht0] at hb
  obtain ⟨hb1, hb2⟩ := abs_le.mp hb
  have h2 : lo ^ 2 ≤ t ^ 2 := pow_le_pow_left hlo0 hlo 2
  have h4 : t ^ 4 ≤ hi ^ 4 := pow_le_pow_left ht0 hhi 4
  linarith

theorem cos_double_lb {y L L' : ℝ} (h0 : 0 ≤ L) (hL : L ≤ Real.cos y)
    (h' : L' ≤ 2 * L ^ 2 - 1) : L' ≤ Real.cos (2 * y) := by
  rw [Real.cos_two_mul]
  have hsq : L ^ 2 ≤ Real.cos y ^ 2 := pow_le_pow_left h0 hL 2
  linarith

theorem cos_double_ub {y L U U' : ℝ} (h0 : 0 ≤ L) (hL : L ≤ Real.cos y)
    (hU : Real.cos y ≤ U) (h' : 2 * U ^ 2 - 1 ≤ U') : Real.cos (2 * y) ≤ U' := by
  rw [Real.cos_two_mul]
  have hsq : Real.cos y ^ 2 ≤ U ^ 2 := by
    nlinarith [mul_nonneg (sub_nonneg.mpr hU) (by linarith : (0 : ℝ) ≤ U + Real.cos y)]
  linarith

theorem cos_radians_30_7333_bounds :
    (859548149619 / 1000000000000 : ℝ) ≤ Real.cos (Tiles.radians 30.7333) ∧
      Real.cos (Tiles.radians 30.7333) ≤ 859556262553 / 1000000000000 := by
  have hylo : (167624113 / 10000000000 : ℝ) ≤ 30.7333 * Real.pi / 5760 := by
    nlinarith [Real.pi_gt_d6]
  have hyhi : (30.7333 : ℝ) * Real.pi / 5760 ≤ 167624167 / 10000000000 := by
    nlinarith [Real.pi_lt_d6]
  have h0L : (999859506581 / 1000000000000 : ℝ) ≤ Real.cos (30.7333 * Real.pi / 5760) :=
    cos_quartic_lb (by norm_num) hylo hyhi (by norm_num) (by norm_num)
  have h0U : Real.cos (30.7333 * Real.pi / 5760) ≤ 62491219681 / 62500000000 :=
    cos_quartic_ub (by norm_num) hylo hyhi (by norm_num) (by norm_num)
  have h1L : (4997190329 / 5000000000 : ℝ) ≤ Real.cos (2 * (30.7333 * Real.pi / 5760)) :=
    cos_double_lb (by norm_num) h0L (by norm_num)
  have h1U : Real.cos (2 * (30.7333 * Real.pi / 5760)) ≤ 999438099057 / 1000000000000 :=
    cos_double_ub (by norm_num) h0L h0U (by norm_num)
  have h2L : (49887644737 / 50000000000 : ℝ) ≤ Real.cos (2 * (2 * (30.7333 * Real.pi / 5760))) :=
    cos_double_lb (by norm_num) h1L (by norm_num)
  have h2U : Real.cos (2 * (2 * (30.7333 * Real.pi / 5760))) ≤ 498876513847 / 500000000000 :=
    cos_double_ub (by norm_num) h1L h1U (by norm_num)
  have h3L : (247755419481 / 250000000000 : ℝ) ≤ Real.cos (2 * (2 * (2 * (30.7333 * Real.pi / 5760)))) :=
    cos_double_lb (by norm_num) h2L (by norm_num)
  have h3U : Real.cos (2 * (2 * (2 * (30.7333 * Real.pi / 5760)))) ≤ 495511104273 / 500000000000 :=
    cos_double_ub (by norm_num) h2L h2U (by norm_num)
  have h4L : (96424793223 / 100000000000 : ℝ) ≤ Real.cos (2 * (2 * (2 * (2 * (30.7333 * Real.pi / 5760))))) :=
    cos_double_lb (by norm_num) h3L (by norm_num)
  have h4U : Real.cos (2 * (2 * (2 * (2 * (30.7333 * Real.pi / 5760))))) ≤ 964250035663 / 1000000000000 :=
    cos_double_ub (by norm_num) h3L h3U (by norm_num)
  have h5L : (859548149619 / 1000000000000 : ℝ) ≤ Real.cos (2 * (2 * (2 * (2 * (2 * (30.7333 * Real.pi / 5760)))))) :=
    cos_double_lb (by norm_num) h4L (by norm_num)
  have h5U : Real.cos (2 * (2 * (2 * (2 * (2 * (30.7333 * Real.pi / 5760)))))) ≤ 859556262553 / 1000000000000 :=
    cos_double_ub (by norm_num) h4L h4U (by norm_num)
  have hrw : Tiles.radians 30.7333 = 2 * (2 * (2 * (2 * (2 * (30.7333 * Real.pi / 5760))))) := by
    rw [Tiles.radians]; ring
  rw [hrw]
  exact ⟨h5L, h5U⟩

theorem cos_radians_30_7305_lb :
    (859573124199 / 1000000000000 : ℝ) ≤ Real.cos (Tiles.radians 30.7305) := by
  have hylo : (167608841 / 10000000000 : ℝ) ≤ 30.7305 * Real.pi / 5760 := by
    nlinarith [Real.pi_gt_d6]
  have hyhi : (30.7305 : ℝ) * Real.pi / 5760 ≤ 2618889 / 156250000 := by
    nlinarith [Real.pi_lt_d6]
  have h0L : (999859532179 / 1000000000000 : ℝ) ≤ Real.cos (30.7305 * Real.pi / 5760) :=
    cos_quartic_lb (by norm_num) hylo hyhi (by norm_num) (by norm_num)
  have h0U : Real.cos (30.7305 * Real.pi / 5760) ≤ 999859540493 / 1000000000000 :=
    cos_quartic_ub (by norm_num) hylo hyhi (by norm_num) (by norm_num)
  have h1L : (499719084089 / 500000000000 : ℝ) ≤ Real.cos (2 * (30.7305 * Real.pi / 5760)) :=
    cos_double_lb (by norm_num) h0L (by norm_num)
  have h1U : Real.cos (2 * (30.7305 * Real.pi / 5760)) ≤ 99943820143 / 100000000000 :=
    cos_double_ub (by norm_num) h0L h0U (by norm_num)
  have h2L : (997753304021 / 1000000000000 : ℝ) ≤ Real.cos (2 * (2 * (30.7305 * Real.pi / 5760))) :=
    cos_double_lb (by norm_num) h1L (by norm_num)
  have h2U : Real.cos (2 * (2 * (30.7305 * Real.pi / 5760))) ≤ 249438359239 / 250000000000 :=
    cos_double_ub (by norm_num) h1L h1U (by norm_num)
  have h3L : (991023311369 / 1000000000000 : ℝ) ≤ Real.cos (2 * (2 * (2 * (30.7305 * Real.pi / 5760)))) :=
    cos_double_lb (by norm_num) h2L (by norm_num)
  have h3U : Real.cos (2 * (2 * (2 * (30.7305 * Real.pi / 5760)))) ≤ 247755960479 / 250000000000 :=
    cos_double_ub (by norm_num) h2L h2U (by norm_num)
  have h4L : (964254407353 / 1000000000000 : ℝ) ≤ Real.cos (2 * (2 * (2 * (2 * (30.7305 * Real.pi / 5760))))) :=
    cos_double_lb (by norm_num) h3L (by norm_num)
  have h4U : Real.cos (2 * (2 * (2 * (2 * (30.7305 * Real.pi / 5760))))) ≤ 241064127623 / 250000000000 :=
    cos_double_ub (by norm_num) h3L h3U (by norm_num)
  have h5L : (859573124199 / 1000000000000 : ℝ) ≤ Real.cos (2 * (2 * (2 * (2 * (2 * (30.7305 * Real.pi / 5760)))))) :=
    cos_double_lb (by norm_num) h4L (by norm_num)
  have h5U : Real.cos (2 * (2 * (2 * (2 * (2 * (30.7305 * Real.pi / 5760)))))) ≤ 859581236053 / 1000000000000 :=
    cos_double_ub (by norm_num) h4L h4U (by norm_num)
  have hrw : Tiles.radians 30.7305 = 2 * (2 * (2 * (2 * (2 * (30.7305 * Real.pi / 5760))))) := by
    rw [Tiles.radians]; ring
  rw [hrw]
  exact h5L

/-- Core computation at the Chandigarh point `(30.7333, 76.7794)`: the tile is
`T_3414_7332`, its latitude bounds contain the point, its longitude lower
bound does, but its longitude upper bound falls short of the point: the
longitude index was taken with `cos` at the point latitude while the bounds
use `cos` at the cell-center latitude. -/
theorem tile_bounds_at_chandigarh :
    Tiles.latLonToTileIdx 30.7333 76.7794 = (3414, 7332) ∧
    ∃ tb : Tiles.TileBounds,
      Tiles.get_tile_bounds (Tiles.lat_lon_to_tile_id 30.7333 76.7794) = some tb ∧
      tb.min_lat ≤ 30.7333 ∧ (30.7333 : ℝ) ≤ tb.max_lat ∧ tb.min_lon ≤ 76.7794 ∧
      tb.max_lon < 76.7794 := by
  obtain ⟨hc1L, hc1U⟩ := cos_radians_30_7333_bounds
  have hc2L := cos_radians_30_7305_lb
  have hm1 : max (Real.cos (Tiles.radians 30.7333)) 0.01 = Real.cos (Tiles.radians 30.7333) :=
    max_eq_left (le_trans (by norm_num) hc1L)
  have hm2 : max (Real.cos (Tiles.radians 30.7305)) 0.01 = Real.cos (Tiles.radians 30.7305) :=
    max_eq_left (le_trans (by norm_num) hc2L)
  have hkm1 : Tiles.kmToDegLon 30.7333 =
      Tiles.KM_TO_DEG_LAT / Real.cos (Tiles.radians 30.7333) := by
    rw [Tiles.kmToDegLon, hm1]
  have hkm2 : Tiles.kmToDegLon 30.7305 =
      Tiles.KM_TO_DEG_LAT / Real.cos (Tiles.radians 30.7305) := by
    rw [Tiles.kmToDegLon, hm2]
  have hc2pos : (0 : ℝ) < Real.cos (Tiles.radians 30.7305) := lt_of_lt_of_le (by norm_num) hc2L
  have hidx : Tiles.latLonToTileIdx 30.7333 76.7794 = (3414, 7332) := by
    unfold Tiles.latLonToTileIdx
    rw [Prod.mk.injEq]
    constructor
    · rw [Int.floor_eq_iff, Tiles.KM_TO_DEG_LAT]
      constructor
      · push_cast
        rw [le_div_iff (by norm_num)]
        norm_num
      · push_cast
        rw [div_lt_iff (by norm_num)]
        norm_num
    · rw [hkm1, div_div_eq_mul_div, Int.floor_eq_iff, Tiles.KM_TO_DEG_LAT]
      constructor
      · push_cast
        rw [le_div_iff (by norm_num)]
        nlinarith [hc1L]
      · push_cast
        rw [div_lt_iff (by norm_num)]
        nlinarith [hc1U]
  have hcl : (((3414 : ℤ) : ℝ) * Tiles.KM_TO_DEG_LAT +
      (((3414 : ℤ) : ℝ) + 1) * Tiles.KM_TO_DEG_LAT) / 2 = 30.7305 := by
    rw [Tiles.KM_TO_DEG_LAT]
    push_cast
    norm_num
  refine ⟨hidx, Tiles.boundsOfIdx (Tiles.lat_lon_to_tile_id 30.7333 76.7794) 3414 7332,
    ?_, ?_, ?_, ?_, ?_⟩
  · rw [Tiles.lat_lon_to_tile_id, hidx]
    exact Tiles.get_tile_bounds_render 3414 7332
  · rw [Tiles.boundsOfIdx_min_lat, Tiles.KM_TO_DEG_LAT]
    push_cast
    norm_num
  · rw [Tiles.boundsOfIdx_max_lat, Tiles.KM_TO_DEG_LAT]
    push_cast
    norm_num
  · rw [Tiles.boundsOfIdx_min_lon, hcl, hkm2, Tiles.KM_TO_DEG_LAT]
    rw [show (((7332 : ℤ) : ℝ)) * ((0.009 : ℝ) / Real.cos (Tiles.radians 30.7305)) =
        7332 * 0.009 / Real.cos (Tiles.radians 30.7305) from by push_cast; ring]
    rw [div_le_iff hc2pos]
    nlinarith [hc2L]
  · rw [Tiles.boundsOfIdx_max_lon, hcl, hkm2, Tiles.KM_TO_DEG_LAT]
    rw [show ((((7332 : ℤ) : ℝ)) + 1) * ((0.009 : ℝ) / Real.cos (Tiles.radians 30.7305)) =
        7333 * 0.009 / Real.cos (Tiles.radians 30.7305) from by push_cast; ring]
    rw [div_lt_iff hc2pos]
    nlinarith [hc2L]

/-- **C6 (counterexample).**  At `(30.7333, 76.7794)` the rectangle returned
by `get_tile_bounds (lat_lon_to_tile_id 30.7333 76.7794)` does NOT contain
the point: `max_lon < 76.7794` (it is ≈ 76.77816). -/
theorem C6_counterexample_bounds_exclude_point :
    ∃ tb : Tiles.TileBounds,
      Tiles.get_tile_bounds (Tiles.lat_lon_to_tile_id 30.7333 76.7794) = some tb ∧
      tb.max_lon < 76.7794 := by
  obtain ⟨-, tb, htb, -, -, -, hlt⟩ := tile_bounds_at_chandigarh
  exact ⟨tb, htb, hlt⟩

/-- **C6 (amended).**  `lat_lon_to_tile_id (30.7333, 76.7794)` has lat index
`⌊30.7333/0.009⌋ = 3414` (tile `T_3414_7332`), and `get_tile_bounds` of that
tile contains the point's latitude and lower-bounds its longitude, but its
`max_lon` is strictly below `76.7794`: the containment part of the claim
fails on the longitude axis. -/
theorem C6_amended_chandigarh_tile :
    Tiles.latLonToTileIdx 30.7333 76.7794 = (3414, 7332) ∧
    ∃ tb : Tiles.TileBounds,
      Tiles.get_tile_bounds (Tiles.lat_lon_to_tile_id 30.7333 76.7794) = some tb ∧
      tb.min_lat ≤ 30.7333 ∧ (30.7333 : ℝ) ≤ tb.max_lat ∧ tb.min_lon ≤ 76.7794 ∧
      tb.max_lon < 76.7794 :=
  tile_bounds_at_chandigarh

namespace VideoPipeline

/-- Key strings of the detection dictionaries. -/
def kVehicleCount : String := "vehicle_count"

def kTotalVehicleCoverage : String := "total_vehicle_coverage"

/-- A detection dictionary with numeric values (`dict.get(k, default)`). -/
abbrev Det := List (String × ℚ)

/-- Python's `dict.get(key, default)` on an association list. -/
def pyGet (d : Det) (k : String) (dflt : ℚ) : ℚ :=
  match d.find? (fun kv => kv.1 == k) with
  | some kv => kv.2
  | none => dflt

/-- `calculate_congestion_severity(detection)` — translated verbatim from
`video_pipeline.py`, including the `vehicle_coverage * 100 * 50` coverage
term. -/
def calculate_congestion_severity (d : Det) : ℚ :=
  let vehicle_coverage := pyGet d kTotalVehicleCoverage 0
  let vehicle_count := pyGet d kVehicleCount 0
  let coverage_severity := vehicle_coverage * 100 * 50
  let count_severity := min (vehicle_count * 2) 50
  min (coverage_severity + count_severity) 100

/-- Modelled from the spec: the congestion severity announced there,
`min(coverage_fraction * 100 * 0.5 + min(vehicle_count * 2, 50), 100)`, with
each term contributing at most 50 points.  To be compared against the code's
`calculate_congestion_severity`. -/
def specCongestionSeverity (coverage count : ℚ) : ℚ :=
  min (coverage * 100 * 0.5 + min (count * 2) 50) 100

/-- `FRAMES_PER_SECOND = 4` from `app/core/config.py`. -/
def FRAMES_PER_SECOND : ℚ := 4

/-- One row of interpolated GPS data. -/
structure GPSPoint where
  lat : ℚ
  lon : ℚ
  velocity : ℚ
  gyro_magnitude : ℚ
deriving DecidableEq, Repr, Inhabited

/-- Python's `int(q)` for a rational: truncation toward zero. -/
def pyTrunc (q : ℚ) : ℤ := if 0 ≤ q then ⌊q⌋ else -⌊-q⌋

/-- `interpolate_gps_for_frame(frame_idx, total_frames, gps_data)`. -/
def interpolate_gps_for_frame (frame_idx : ℕ) (total_frames : ℕ)
    (gps_data : List GPSPoint) : GPSPoint :=
  if gps_data.isEmpty then ⟨30.7333, 76.7794, 0, 0⟩
  else
    let position : ℚ :=
      ((frame_idx : ℚ) / max ((total_frames : ℚ) - 1) 1) * ((gps_data.length : ℚ) - 1)
    let idx_low := (pyTrunc position).toNat
    let idx_high := min (idx_low + 1) (gps_data.length - 1)
    if idx_low = idx_high then gps_data.getD idx_low default
    else
      let t := position - (idx_low : ℚ)
      let lo := gps_data.getD idx_low default
      let hi := gps_data.getD idx_high default
      ⟨lo.lat * (1 - t) + hi.lat * t,
       lo.lon * (1 - t) + hi.lon * t,
       lo.velocity * (1 - t) + hi.velocity * t,
       lo.gyro_magnitude * (1 - t) + hi.gyro_magnitude * t⟩

/-- A congestion event dictionary as built by `parse_model_outputs_to_events`
(the fields relevant to the congestion branch; the random `event_id` and the
`upload_id`/`device_id` pass-throughs are omitted). -/
structure CongestionEvent where
  frame_idx : ℕ
  event_type : String
  detected_at : ℚ
  lat : ℚ
  lon : ℚ
  tile_id : String
  vehicle_count : ℚ
  total_vehicle_coverage : ℚ
  traffic_density_score : ℚ
  severity : ℚ
  confidence : ℚ

/-- The congestion loop of `parse_model_outputs_to_events`, iterating
`enumerate(congestion_results)` from frame index `k`. -/
noncomputable def congestionEventsFrom (total_frames : ℕ) (gps_data : List GPSPoint)
    (video_ts : ℚ) : ℕ → List Det → List CongestionEvent
  | _, [] => []
  | i, result :: rest =>
    let tail := congestionEventsFrom total_frames gps_data video_ts (i + 1) rest
    let vehicle_count := pyGet result kVehicleCount 0
    let coverage := pyGet result kTotalVehicleCoverage 0
    if vehicle_count ≥ 3 ∨ coverage ≥ 0.15 then
      let gps := interpolate_gps_for_frame i total_frames gps_data
      if gps.lat = 0 ∧ gps.lon = 0 then tail
      else
        ⟨i, "congestion", video_ts + (i : ℚ) / max FRAMES_PER_SECOND 1, gps.lat, gps.lon,
          Tiles.lat_lon_to_tile_id (gps.lat : ℝ) (gps.lon : ℝ), vehicle_count, coverage,
          coverage * 100, calculate_congestion_severity result, 0.85⟩ :: tail
    else tail

/-- The congestion half of `parse_model_outputs_to_events`:
`total_frames = max(len(congestion_results), len(pothole_results))`. -/
noncomputable def parse_congestion_events (congestion_results : List Det)
    (pothole_len : ℕ) (gps_data : List GPSPoint) (video_ts : ℚ) : List CongestionEvent :=
  congestionEventsFrom (max congestion_results.length pothole_len) gps_data video_ts
    0 congestion_results

theorem congestionEventsFrom_mem {total : ℕ} {gps : List GPSPoint} {ts : ℚ} :
    ∀ (l : List Det) (k : ℕ) (e : CongestionEvent),
      e ∈ congestionEventsFrom total gps ts k l →
      e.confidence = 0.85 ∧ e.traffic_density_score = e.total_vehicle_coverage * 100 ∧
        k ≤ e.frame_idx ∧ e.frame_idx < k + l.length := by
  intro l
  induction l with
  | nil =>
    intro k e he
    simp [congestionEventsFrom] at he
  | cons d rest ih =>
    intro k e he
    rw [congestionEventsFrom] at he
    by_cases hcond : pyGet d kVehicleCount 0 ≥ 3 ∨ pyGet d kTotalVehicleCoverage 0 ≥ 0.15
    · rw [if_pos hcond] at he
      by_cases hbad : (interpolate_gps_for_frame k total gps).lat = 0 ∧
          (interpolate_gps_for_frame k total gps).lon = 0
      · rw [if_pos hbad] at he
        obtain ⟨h1, h2, h3, h4⟩ := ih (k + 1) e he
        refine ⟨h1, h2, by omega, ?_⟩
        simp only [List.length_cons]
        omega
      · rw [if_neg hbad, List.mem_cons] at he
        rcases he with he | he
        · subst he
          refine ⟨rfl, rfl, le_refl _, ?_⟩
          simp
        · obtain ⟨h1, h2, h3, h4⟩ := ih (k + 1) e he
          refine ⟨h1, h2, by omega, ?_⟩
          simp only [List.length_cons]
          omega
    · rw [if_neg hcond] at he
      obtain ⟨h1, h2, h3, h4⟩ := ih (k + 1) e he
      refine ⟨h1, h2, by omega, ?_⟩
      simp only [List.length_cons]
      omega

theorem congestionEventsFrom_mem_iff (total : ℕ) (gps : List GPSPoint) (ts : ℚ) :
    ∀ (l : List Det) (k i : ℕ),
      (∃ e ∈ congestionEventsFrom total gps ts k l, e.frame_idx = k + i) ↔
        (i < l.length ∧
         (pyGet (l.getD i []) kVehicleCount 0 ≥ 3 ∨
           pyGet (l.getD i []) kTotalVehicleCoverage 0 ≥ 0.15) ∧
         ¬((interpolate_gps_for_frame (k + i) total gps).lat = 0 ∧
           (interpolate_gps_for_frame (k + i) total gps).lon = 0)) := by
  intro l
  induction l with
  | nil =>
    intro k i
    simp [congestionEventsFrom]
  | cons d rest ih =>
    intro k i
    cases i with
    | zero =>
      rw [congestionEventsFrom]
      by_cases hcond : pyGet d kVehicleCount 0 ≥ 3 ∨ pyGet d kTotalVehicleCoverage 0 ≥ 0.15
      · rw [if_pos hcond]
        by_cases hbad : (interpolate_gps_for_frame k total gps).lat = 0 ∧
            (interpolate_gps_for_frame k total gps).lon = 0
        · rw [if_pos hbad]
          constructor
          · rintro ⟨e, he, hf⟩
            obtain ⟨-, -, h3, -⟩ := congestionEventsFrom_mem rest (k + 1) e he
            omega
          · rintro ⟨-, -, h3⟩
            exact absurd hbad h3
        · rw [if_neg hbad]
          constructor
          · intro _
            exact ⟨by simp, hcond, hbad⟩
          · intro _
            exact ⟨_, List.mem_cons_self _ _, rfl⟩
      · rw [if_neg hcond]
        constructor
        · rintro ⟨e, he, hf⟩
          obtain ⟨-, -, h3, -⟩ := congestionEventsFrom_mem rest (k + 1) e he
          omega
        · rintro ⟨-, h2, -⟩
          exact absurd h2 hcond
    | succ j =>
      rw [congestionEventsFrom]
      have hki : k + (j + 1) = (k + 1) + j := by omega
      have hmain : (∃ e ∈ congestionEventsFrom total gps ts (k + 1) rest,
          e.frame_idx = k + (j + 1)) ↔
          (j < rest.length ∧
           (pyGet (rest.getD j []) kVehicleCount 0 ≥ 3 ∨
             pyGet (rest.getD j []) kTotalVehicleCoverage 0 ≥ 0.15) ∧
           ¬((interpolate_gps_for_frame (k + (j + 1)) total gps).lat = 0 ∧
             (interpolate_gps_for_frame (k + (j + 1)) total gps).lon = 0)) := by
        rw [hki]
        exact ih (k + 1) j
      by_cases hcond : pyGet d kVehicleCount 0 ≥ 3 ∨ pyGet d kTotalVehicleCoverage 0 ≥ 0.15
      · rw [if_pos hcond]
        by_cases hbad : (interpolate_gps_for_frame k total gps).lat = 0 ∧
            (interpolate_gps_for_frame k total gps).lon = 0
        · rw [if_pos hbad]
          rw [hmain]
          simp only [List.length_cons, List.getD_cons_succ]
          constructor
          · rintro ⟨h1, h2, h3⟩
            exact ⟨by omega, h2, h3⟩
          · rintro ⟨h1, h2, h3⟩
            exact ⟨by omega, h2, h3⟩
        · rw [if_neg hbad]
          constructor
          · rintro ⟨e, he, hf⟩
            rw [List.mem_cons] at he
            rcases he with he | he
            · subst he
              have hf' : k = k + (j + 1) := hf
              omega
            · have := hmain.mp ⟨e, he, hf⟩
              simp only [List.length_cons, List.getD_cons_succ]
              obtain ⟨h1, h2, h3⟩ := this
              exact ⟨by omega, h2, h3⟩
          · rintro ⟨h1, h2, h3⟩
            simp only [List.length_cons] at h1
            simp only [List.getD_cons_succ] at h2
            obtain ⟨e, he, hf⟩ := hmain.mpr ⟨by omega, h2, h3⟩
            exact ⟨e, List.mem_cons_of_mem _ he, hf⟩
      · rw [if_neg hcond]
        rw [hmain]
        simp only [List.length_cons, List.getD_cons_succ]
        constructor
        · rintro ⟨h1, h2, h3⟩
          exact ⟨by omega, h2, h3⟩
        · rintro ⟨h1, h2, h3⟩
          exact ⟨by omega, h2, h3⟩

end VideoPipeline

/-- **C1 (code bug).**  On the detection `{"total_vehicle_coverage": 0.005}`
(vehicle count 0) the code returns severity 25: its coverage term is
`coverage * 100 * 50`, not the documented/specified `coverage * 100 * 0.5`
(comment in the code: "Coverage-based severity (0-50)").  The spec formula
gives 0.25 at the same input. -/
theorem C1_congestion_severity_coverage_term_bug :
    VideoPipeline.calculate_congestion_severity
        [(VideoPipeline.kTotalVehicleCoverage, 1 / 200)] = 25 ∧
      VideoPipeline.specCongestionSeverity (1 / 200) 0 = 1 / 4 ∧ ((25 : ℚ) ≠ 1 / 4) := by
  have h1 : VideoPipeline.pyGet [(VideoPipeline.kTotalVehicleCoverage, (1 / 200 : ℚ))]
      VideoPipeline.kTotalVehicleCoverage 0 = 1 / 200 := rfl
  have h2 : VideoPipeline.pyGet [(VideoPipeline.kTotalVehicleCoverage, (1 / 200 : ℚ))]
      VideoPipeline.kVehicleCount 0 = 0 := rfl
  refine ⟨?_, ?_, by norm_num⟩
  · simp only [VideoPipeline.calculate_congestion_severity, h1, h2]
    norm_num [min_def]
  · simp only [VideoPipeline.specCongestionSeverity]
    norm_num [min_def]

/-- **C10.**  In `parse_model_outputs_to_events`, a congestion event for frame
`i` exists iff frame `i` is a processed frame whose record has
`vehicle_count >= 3` or `total_vehicle_coverage >= 0.15` and whose
interpolated location is not `(0, 0)`; and every emitted congestion event has
confidence exactly `0.85` and `traffic_density_score` equal to
`total_vehicle_coverage * 100`. -/
theorem C10_congestion_event_iff (congestion_results : List VideoPipeline.Det)
    (pothole_len : ℕ) (gps_data : List VideoPipeline.GPSPoint) (video_ts : ℚ) (i : ℕ) :
    ((∃ e ∈ VideoPipeline.parse_congestion_events congestion_results pothole_len
        gps_data video_ts, e.frame_idx = i) ↔
      (i < congestion_results.length ∧
       (VideoPipeline.pyGet (congestion_results.getD i []) VideoPipeline.kVehicleCount 0 ≥ 3 ∨
        VideoPipeline.pyGet (congestion_results.getD i [])
          VideoPipeline.kTotalVehicleCoverage 0 ≥ 0.15) ∧
       ¬((VideoPipeline.interpolate_gps_for_frame i
            (max congestion_results.length pothole_len) gps_data).lat = 0 ∧
         (VideoPipeline.interpolate_gps_for_frame i
            (max congestion_results.length pothole_len) gps_data).lon = 0))) ∧
    ∀ e ∈ VideoPipeline.parse_congestion_events congestion_results pothole_len
        gps_data video_ts,
      e.confidence = 0.85 ∧ e.traffic_density_score = e.total_vehicle_coverage * 100 := by
  constructor
  · have h := VideoPipeline.congestionEventsFrom_mem_iff
      (max congestion_results.length pothole_len) gps_data video_ts congestion_results 0 i
    rw [VideoPipeline.parse_congestion_events]
    simpa using h
  · intro e he
    rw [VideoPipeline.parse_congestion_events] at he
    obtain ⟨h1, h2, -, -⟩ := VideoPipeline.congestionEventsFrom_mem _ _ _ he
    exact ⟨h1, h2⟩

/-- Witness for C10 at one concrete frame list (one frame with 5 vehicles,
no GPS rows, so the interpolated location is the Chandigarh default). -/
theorem C10_congestion_event_iff_witness :
    ((∃ e ∈ VideoPipeline.parse_congestion_events
        [[(VideoPipeline.kVehicleCount, (5 : ℚ))]] 0 [] 0, e.frame_idx = 0) ↔
      (0 < ([[(VideoPipeline.kVehicleCount, (5 : ℚ))]] : List VideoPipeline.Det).length ∧
       (VideoPipeline.pyGet (([[(VideoPipeline.kVehicleCount, (5 : ℚ))]] :
            List VideoPipeline.Det).getD 0 []) VideoPipeline.kVehicleCount 0 ≥ 3 ∨
        VideoPipeline.pyGet (([[(VideoPipeline.kVehicleCount, (5 : ℚ))]] :
            List VideoPipeline.Det).getD 0 [])
          VideoPipeline.kTotalVehicleCoverage 0 ≥ 0.15) ∧
       ¬((VideoPipeline.interpolate_gps_for_frame 0
            (max ([[(VideoPipeline.kVehicleCount, (5 : ℚ))]] :
              List VideoPipeline.Det).length 0) []).lat = 0 ∧
         (VideoPipeline.interpolate_gps_for_frame 0
            (max ([[(VideoPipeline.kVehicleCount, (5 : ℚ))]] :
              List VideoPipeline.Det).length 0) []).lon = 0))) ∧
    ∀ e ∈ VideoPipeline.parse_congestion_events
        [[(VideoPipeline.kVehicleCount, (5 : ℚ))]] 0 [] 0,
      e.confidence = 0.85 ∧ e.traffic_density_score = e.total_vehicle_coverage * 100 :=
  C10_congestion_event_iff [[(VideoPipeline.kVehicleCount, (5 : ℚ))]] 0 [] 0 0

namespace Metrics

/-- `WINDOW_SECONDS = 5` from `metrics.py`. -/
def WINDOW_SECONDS : ℚ := 5

def kAccelerometer : String := "Accelerometer"

def kGyroscope : String := "Gyroscope"

def kPotholeCv : String := "pothole_cv"

def kCongestionCv : String := "congestion_cv"

def kPotholes : String := "potholes"

def kTotalPotholeSize : String := "total_pothole_size"

def kTotalVehicleCoverage : String := "total_vehicle_coverage"

def coverageSuffix : String := "_coverage"

/-- One parsed sensor CSV row (either an accelerometer or a gyroscope
reading), as built by `merge_metrics` step 1. -/
structure Reading where
  timestamp : ℚ
  stype : String
  x : ℝ
  y : ℝ
  z : ℝ
  pothole_flag : ℤ
  latitude : ℝ
  longitude : ℝ

/-- A CV detection dictionary (numeric values only). -/
abbrev CVData := List (String × ℝ)

/-- One flattened CV event (`pothole_cv` or `congestion_cv`). -/
structure CVEvent where
  timestamp : ℚ
  ctype : String
  data : CVData

/-- `dict.get(key, default)` over a CV dictionary. -/
def cvGet (d : CVData) (k : String) (dflt : ℝ) : ℝ :=
  match d.find? (fun kv => kv.1 == k) with
  | some kv => kv.2
  | none => dflt

/-- `statistics.mean(data) if data else 0.0`. -/
noncomputable def safe_mean (l : List ℝ) : ℝ := if l.isEmpty then 0 else l.sum / l.length

/-- `statistics.stdev(data) if len(data) > 1 else 0.0` (sample standard
deviation). -/
noncomputable def safe_stdev (l : List ℝ) : ℝ :=
  if 1 < l.length then
    Real.sqrt (((l.map fun v => (v - l.sum / l.length) ^ 2).sum) / ((l.length : ℝ) - 1))
  else 0

/-- Python's `max(l)` with an explicit default for the guarded empty case. -/
noncomputable def pyMax (l : List ℝ) (dflt : ℝ) : ℝ :=
  match l with
  | [] => dflt
  | v :: vs => vs.foldl max v

/-- Python's `min(l)` with an explicit default for the guarded empty case. -/
noncomputable def pyMin (l : List ℝ) (dflt : ℝ) : ℝ :=
  match l with
  | [] => dflt
  | v :: vs => vs.foldl min v

/-- Python's `round(v, d)` (modelled as round-half-up on exact reals). -/
noncomputable def pyRound (v : ℝ) (d : ℕ) : ℝ := (round (v * 10 ^ d) : ℤ) / 10 ^ d

/-- `get_vehicle_count(d)`: sum the values whose keys are not coverage keys. -/
noncomputable def get_vehicle_count (d : CVData) : ℝ :=
  ((d.filter fun kv =>
    !(kv.1.endsWith coverageSuffix) && !(kv.1 == kTotalVehicleCoverage)).map
      fun kv => kv.2).sum

/-- `acc_z_vals` of a window: z values of the accelerometer readings. -/
def accZVals (wr : List Reading) : List ℝ :=
  ((wr.filter fun r => r.stype == kAccelerometer).map fun r => r.z)

/-- `az_std` of a window. -/
noncomputable def azStd (wr : List Reading) : ℝ := safe_stdev (accZVals wr)

/-- `roughness_index = az_std * 10`. -/
noncomputable def roughnessIndex (wr : List Reading) : ℝ := azStd wr * 10

/-- `impact_intensity = max(|z|) if acc_z_vals else 0.0`. -/
noncomputable def impactIntensity (wr : List Reading) : ℝ :=
  if (accZVals wr).isEmpty then 0 else pyMax ((accZVals wr).map fun v => |v|) 0

/-- `frames_with_pothole = sum(1 for c in pothole_counts if c > 0)`. -/
noncomputable def framesWithPothole (wcp : List CVData) : ℕ :=
  ((wcp.map fun d => cvGet d kPotholes 0).countP fun c => decide (0 < c))

/-- `total_frames_est`. -/
def totalFramesEst (wcp wcc : List CVData) : ℕ :=
  if ¬wcc.isEmpty then wcc.length else if ¬wcp.isEmpty then wcp.length else 1

/-- `pothole_persistence = frames_with_pothole / total_frames_est` (guarded). -/
noncomputable def potholePersistence (wcp wcc : List CVData) : ℝ :=
  if 0 < totalFramesEst wcp wcc then
    (framesWithPothole wcp : ℝ) / (totalFramesEst wcp wcc : ℝ)
  else 0

/-- `validation_score = min(100, pothole_persistence * 50 + roughness_index * 5)`. -/
noncomputable def validationScore (wr : List Reading) (wcp wcc : List CVData) : ℝ :=
  min 100 (potholePersistence wcp wcc * 50 + roughnessIndex wr * 5)

/-- The merged per-event record written by `merge_metrics` (the
`event_timestamp` is kept as a rational timestamp rather than a formatted
string). -/
structure MetricsEvent where
  event_timestamp : ℚ
  lat_center : ℝ
  lon_center : ℝ
  lat_min : ℝ
  lat_max : ℝ
  lon_min : ℝ
  lon_max : ℝ
  window_duration_sec : ℚ
  validation_score : ℝ
  roughness_index : ℝ
  impact_intensity : ℝ
  traffic_level : String
  needs_attention : Prop
  ax_avg : ℝ
  ay_avg : ℝ
  az_avg : ℝ
  ax_std : ℝ
  ay_std : ℝ
  az_std : ℝ
  az_spike : ℝ
  gx_avg : ℝ
  gy_avg : ℝ
  gz_avg : ℝ
  gyro_intensity : ℝ
  pothole_confidence : ℝ
  frames_with_pothole : ℕ
  total_frames : ℕ
  pothole_persistence : ℝ
  avg_pothole_size : ℝ
  max_pothole_size : ℝ
  avg_vehicles_per_frame : ℝ
  peak_vehicle_count : ℝ
  avg_vehicle_coverage : ℝ
  peak_vehicle_coverage : ℝ
  traffic_density_score : ℝ

/-- The aggregation body of the event-detection loop of `merge_metrics`,
applied to one trigger window. -/
noncomputable def buildEvent (start_time : ℚ) (window_readings : List Reading)
    (window_cv_pothole window_cv_congestion : List CVData) : MetricsEvent :=
  let acc_readings := window_readings.filter fun r => r.stype == kAccelerometer
  let gyro_readings := window_readings.filter fun r => r.stype == kGyroscope
  let acc_x_vals := acc_readings.map fun r => r.x
  let acc_y_vals := acc_readings.map fun r => r.y
  let gyro_x_vals := gyro_readings.map fun r => r.x
  let gyro_y_vals := gyro_readings.map fun r => r.y
  let gyro_z_vals := gyro_readings.map fun r => r.z
  let lats := window_readings.map fun r => r.latitude
  let longs := window_readings.map fun r => r.longitude
  let az_spike := if (accZVals window_readings).isEmpty then 0 else
    pyMax (accZVals window_readings) 0 - pyMin (accZVals window_readings) 0
  let gyro_mags := gyro_readings.map fun r => Real.sqrt (r.x ^ 2 + r.y ^ 2 + r.z ^ 2)
  let pothole_sizes := window_cv_pothole.map fun d => cvGet d kTotalPotholeSize 0
  let vehicle_counts := window_cv_congestion.map get_vehicle_count
  let vehicle_coverages := window_cv_congestion.map fun d => cvGet d kTotalVehicleCoverage 0
  let traffic_density_score := safe_mean vehicle_coverages * 20
  let traffic_level : String :=
    if 10 < traffic_density_score then ("heavy")
    else if 5 < traffic_density_score then ("moderate") else ("light")
  ⟨start_time, safe_mean lats, safe_mean longs,
   pyMin lats 0, pyMax lats 0, pyMin longs 0, pyMax longs 0,
   WINDOW_SECONDS,
   pyRound (validationScore window_readings window_cv_pothole window_cv_congestion) 2,
   pyRound (roughnessIndex window_readings) 2,
   pyRound (impactIntensity window_readings) 2,
   traffic_level,
   validationScore window_readings window_cv_pothole window_cv_congestion > 50,
   safe_mean acc_x_vals, safe_mean acc_y_vals, safe_mean (accZVals window_readings),
   safe_stdev acc_x_vals, safe_stdev acc_y_vals, azStd window_readings,
   pyRound az_spike 6,
   safe_mean gyro_x_vals, safe_mean gyro_y_vals, safe_mean gyro_z_vals,
   safe_mean gyro_mags,
   (if 0 < framesWithPothole window_cv_pothole then (100 : ℝ) else 0),
   framesWithPothole window_cv_pothole,
   totalFramesEst window_cv_pothole window_cv_congestion,
   pyRound (potholePersistence window_cv_pothole window_cv_congestion) 3,
   safe_mean pothole_sizes, pyMax pothole_sizes 0,
   safe_mean vehicle_counts, pyMax vehicle_counts 0,
   safe_mean vehicle_coverages, pyMax vehicle_coverages 0,
   pyRound traffic_density_score 2⟩

/-- Sensor readings inside the window `[start, start + WINDOW_SECONDS]`. -/
def windowReadings (sensor_data : List Reading) (start_time : ℚ) : List Reading :=
  sensor_data.filter fun r =>
    decide (start_time ≤ r.timestamp) && decide (r.timestamp ≤ start_time + WINDOW_SECONDS)

/-- CV events of one type inside `[start - 1, start + WINDOW_SECONDS]`. -/
def windowCv (cv_events : List CVEvent) (ty : String) (start_time : ℚ) : List CVData :=
  (cv_events.filter fun ev =>
    ev.ctype == ty && decide (start_time - 1 ≤ ev.timestamp) &&
      decide (ev.timestamp ≤ start_time + WINDOW_SECONDS)).map fun ev => ev.data

/-- The rising-edge detection loop of `merge_metrics` step 3: `prev_flag`
starts at 0 and an event window opens exactly on a `0 → 1` transition. -/
noncomputable def detectLoop (sensor_data : List Reading) (cv_events : List CVEvent) :
    ℤ → List Reading → List MetricsEvent
  | _, [] => []
  | prev_flag, reading :: rest =>
    let tail := detectLoop sensor_data cv_events reading.pothole_flag rest
    if prev_flag = 0 ∧ reading.pothole_flag = 1 then
      (if (windowReadings sensor_data reading.timestamp).isEmpty then tail
       else
        buildEvent reading.timestamp (windowReadings sensor_data reading.timestamp)
          (windowCv cv_events kPotholeCv reading.timestamp)
          (windowCv cv_events kCongestionCv reading.timestamp) :: tail)
    else tail

/-- `merge_metrics`: sort the sensor rows by timestamp, then run the
rising-edge loop (the CV events are only read through the window filters,
whose aggregates are order-independent). -/
noncomputable def merge_metrics (sensor_data : List Reading) (cv_events : List CVEvent) :
    List MetricsEvent :=
  let sorted := List.insertionSort (fun a b => a.timestamp ≤ b.timestamp) sensor_data
  detectLoop sorted cv_events 0 sorted

theorem buildEvent_event_timestamp (st : ℚ) (wr : List Reading) (p c : List CVData) :
    (buildEvent st wr p c).event_timestamp = st := rfl

/-- A sensor reading used in the claim scenarios: an accelerometer row with a
given timestamp, z value and trigger flag. -/
def mkReading (ts : ℚ) (zv : ℝ) (flag : ℤ) : Reading :=
  ⟨ts, kAccelerometer, 0, 0, zv, flag, 0, 0⟩

theorem mkReading_timestamp (ts : ℚ) (zv : ℝ) (f : ℤ) :
    (mkReading ts zv f).timestamp = ts := rfl

theorem mkReading_flag (ts : ℚ) (zv : ℝ) (f : ℤ) :
    (mkReading ts zv f).pothole_flag = f := rfl

end Metrics

/-- **C4.**  On a time-ordered sensor stream with trigger flags
`[0,0,1,1,0,1]` at `t0 < … < t5` (all within one window), `merge_metrics`
emits exactly two events: one for the rising edge at index 2 and one for the
rising edge at index 5.  The flag staying 1 at index 3 does not open a second
window. -/
theorem C4_trigger_flags_two_events (t : Fin 6 → ℚ)
    (hmono : ∀ a b : Fin 6, a < b → t a < t b)
    (hwin : t 5 ≤ t 0 + Metrics.WINDOW_SECONDS) :
    (Metrics.merge_metrics
        [Metrics.mkReading (t 0) 0 0, Metrics.mkReading (t 1) 0 0,
         Metrics.mkReading (t 2) 0 1, Metrics.mkReading (t 3) 0 1,
         Metrics.mkReading (t 4) 0 0, Metrics.mkReading (t 5) 0 1] []).map
      Metrics.MetricsEvent.event_timestamp = [t 2, t 5] := by
  have hle : ∀ a b : Fin 6, a ≤ b → t a ≤ t b := by
    intro a b hab
    rcases lt_or_eq_of_le hab with h | h
    · exact le_of_lt (hmono a b h)
    · rw [h]
  have hsort : List.Sorted (fun a b : Metrics.Reading => a.timestamp ≤ b.timestamp)
      [Metrics.mkReading (t 0) 0 0, Metrics.mkReading (t 1) 0 0,
       Metrics.mkReading (t 2) 0 1, Metrics.mkReading (t 3) 0 1,
       Metrics.mkReading (t 4) 0 0, Metrics.mkReading (t 5) 0 1] := by
    simp only [List.sorted_cons, List.mem_cons, List.not_mem_nil,
      Metrics.mkReading_timestamp, List.mem_singleton, List.sorted_singleton,
      List.sorted_nil, and_true]
    and_intros <;> first
      | (intro r hr
         rcases hr with hr | hr | hr | hr | hr | hr <;> first
           | (subst hr; rw [Metrics.mkReading_timestamp]; exact hle _ _ (by decide))
           | exact absurd hr (by simp))
      | exact hle _ _ (by decide)
      | trivial
  have hinv := List.Sorted.insertionSort_eq hsort
  have hwinpos : (0 : ℚ) < Metrics.WINDOW_SECONDS := by
    rw [Metrics.WINDOW_SECONDS]; norm_num
  have hmem2 : Metrics.mkReading (t 2) 0 1 ∈ Metrics.windowReadings
      [Metrics.mkReading (t 0) 0 0, Metrics.mkReading (t 1) 0 0,
       Metrics.mkReading (t 2) 0 1, Metrics.mkReading (t 3) 0 1,
       Metrics.mkReading (t 4) 0 0, Metrics.mkReading (t 5) 0 1] (t 2) := by
    rw [Metrics.windowReadings]
    apply List.mem_filter.mpr
    refine ⟨by simp, ?_⟩
    simp only [Metrics.mkReading_timestamp, Bool.and_eq_true, decide_eq_true_eq]
    exact ⟨le_refl _, by linarith⟩
  have hmem5 : Metrics.mkReading (t 5) 0 1 ∈ Metrics.windowReadings
      [Metrics.mkReading (t 0) 0 0, Metrics.mkReading (t 1) 0 0,
       Metrics.mkReading (t 2) 0 1, Metrics.mkReading (t 3) 0 1,
       Metrics.mkReading (t 4) 0 0, Metrics.mkReading (t 5) 0 1] (t 5) := by
    rw [Metrics.windowReadings]
    apply List.mem_filter.mpr
    refine ⟨by simp, ?_⟩
    simp only [Metrics.mkReading_timestamp, Bool.and_eq_true, decide_eq_true_eq]
    exact ⟨le_refl _, by linarith⟩
  have hw2 := List.isEmpty_eq_false_iff_exists_mem.mpr ⟨_, hmem2⟩
  have hw5 := List.isEmpty_eq_false_iff_exists_mem.mpr ⟨_, hmem5⟩
  rw [Metrics.merge_metrics]
  rw [hinv]
  norm_num [Metrics.detectLoop, Metrics.mkReading_timestamp, Metrics.mkReading_flag,
    hw2, hw5, Metrics.buildEvent_event_timestamp]

/-- The concrete times `t_i = i` used in the C4 witness. -/
def c4WitnessTimes : Fin 6 → ℚ := fun i => ((i : ℕ) : ℚ)

/-- Witness for C4 at the concrete times `t_i = i`. -/
theorem C4_trigger_flags_two_events_witness :
    (∀ a b : Fin 6, a < b → c4WitnessTimes a < c4WitnessTimes b) ∧
    c4WitnessTimes 5 ≤ c4WitnessTimes 0 + Metrics.WINDOW_SECONDS ∧
    (Metrics.merge_metrics
        [Metrics.mkReading (c4WitnessTimes 0) 0 0,
         Metrics.mkReading (c4WitnessTimes 1) 0 0,
         Metrics.mkReading (c4WitnessTimes 2) 0 1,
         Metrics.mkReading (c4WitnessTimes 3) 0 1,
         Metrics.mkReading (c4WitnessTimes 4) 0 0,
         Metrics.mkReading (c4WitnessTimes 5) 0 1] []).map
      Metrics.MetricsEvent.event_timestamp = [c4WitnessTimes 2, c4WitnessTimes 5] :=
  ⟨by decide,
   by
      rw [show c4WitnessTimes 5 = 5 from rfl, show c4WitnessTimes 0 = 0 from rfl,
        Metrics.WINDOW_SECONDS]
      norm_num,
   C4_trigger_flags_two_events c4WitnessTimes (by decide)
     (by
       rw [show c4WitnessTimes 5 = 5 from rfl, show c4WitnessTimes 0 = 0 from rfl,
         Metrics.WINDOW_SECONDS]
       norm_num)⟩

namespace Metrics

theorem buildEvent_impact_intensity (st : ℚ) (wr : List Reading) (p c : List CVData) :
    (buildEvent st wr p c).impact_intensity = pyRound (impactIntensity wr) 2 := rfl

theorem buildEvent_roughness_index (st : ℚ) (wr : List Reading) (p c : List CVData) :
    (buildEvent st wr p c).roughness_index = pyRound (roughnessIndex wr) 2 := rfl

theorem buildEvent_frames_with_pothole (st : ℚ) (wr : List Reading) (p c : List CVData) :
    (buildEvent st wr p c).frames_with_pothole = framesWithPothole p := rfl

theorem buildEvent_pothole_persistence (st : ℚ) (wr : List Reading) (p c : List CVData) :
    (buildEvent st wr p c).pothole_persistence = pyRound (potholePersistence p c) 3 := rfl

theorem buildEvent_avg_pothole_size (st : ℚ) (wr : List Reading) (p c : List CVData) :
    (buildEvent st wr p c).avg_pothole_size =
      safe_mean (p.map fun d => cvGet d kTotalPotholeSize 0) := rfl

theorem buildEvent_max_pothole_size (st : ℚ) (wr : List Reading) (p c : List CVData) :
    (buildEvent st wr p c).max_pothole_size =
      pyMax (p.map fun d => cvGet d kTotalPotholeSize 0) 0 := rfl

theorem buildEvent_pothole_confidence (st : ℚ) (wr : List Reading) (p c : List CVData) :
    (buildEvent st wr p c).pothole_confidence =
      (if 0 < framesWithPothole p then (100 : ℝ) else 0) := rfl

theorem buildEvent_needs_attention (st : ℚ) (wr : List Reading) (p c : List CVData) :
    (buildEvent st wr p c).needs_attention ↔ validationScore wr p c > 50 := Iff.rfl

/-- Determine `pyRound` from a bracketing of `v * 10^d + 1/2`. -/
theorem pyRound_eval (v : ℝ) (d : ℕ) (n : ℤ) (h1 : (n : ℝ) ≤ v * 10 ^ d + 1 / 2)
    (h2 : v * 10 ^ d + 1 / 2 < n + 1) : pyRound v d = (n : ℝ) / 10 ^ d := by
  rw [pyRound, round_eq, Int.floor_eq_iff.mpr ⟨h1, h2⟩]

theorem safe_stdev_9_8_12_8 :
    safe_stdev [(9.8 : ℝ), 12, 8] = Real.sqrt (301 / 75) := by
  rw [safe_stdev, if_pos (by norm_num)]
  congr 1
  norm_num

theorem sqrt_301_75_bounds :
    (2.0025 : ℝ) < Real.sqrt (301 / 75) ∧ Real.sqrt (301 / 75) < 2.0035 := by
  constructor
  · rw [show (2.0025 : ℝ) = Real.sqrt (2.0025 ^ 2) from
      (Real.sqrt_sq (by norm_num)).symm]
    apply Real.sqrt_lt_sqrt (by norm_num)
    norm_num
  · rw [show (2.0035 : ℝ) = Real.sqrt (2.0035 ^ 2) from
      (Real.sqrt_sq (by norm_num)).symm]
    apply Real.sqrt_lt_sqrt (by norm_num)
    norm_num

/-- Core facts about a trigger window whose accelerometer z samples are
`[9.8, 12.0, 8.0]` and which has no CV records. -/
theorem accel_window_core (start_time : ℚ) (wr : List Reading)
    (hacc : accZVals wr = [(9.8 : ℝ), 12, 8]) :
    (buildEvent start_time wr [] []).impact_intensity = 12 ∧
    (buildEvent start_time wr [] []).roughness_index = 2003 / 100 ∧
    (buildEvent start_time wr [] []).roughness_index =
      pyRound (safe_stdev [(9.8 : ℝ), 12, 8] * 10) 2 ∧
    (buildEvent start_time wr [] []).frames_with_pothole = 0 ∧
    (buildEvent start_time wr [] []).pothole_persistence = 0 ∧
    (buildEvent start_time wr [] []).avg_pothole_size = 0 ∧
    (buildEvent start_time wr [] []).max_pothole_size = 0 ∧
    (buildEvent start_time wr [] []).pothole_confidence = 0 ∧
    ((buildEvent start_time wr [] []).needs_attention ↔
      50 < min 100 (safe_stdev [(9.8 : ℝ), 12, 8] * 10 * 5)) := by
  obtain ⟨hs_lo, hs_hi⟩ := sqrt_301_75_bounds
  have hstdev := safe_stdev_9_8_12_8
  have hrough : roughnessIndex wr = safe_stdev [(9.8 : ℝ), 12, 8] * 10 := by
    rw [roughnessIndex, azStd, hacc]
  have hpers : potholePersistence [] [] = 0 := by
    rw [potholePersistence, totalFramesEst]
    norm_num [framesWithPothole]
  refine ⟨?_, ?_, ?_, rfl, ?_, rfl, rfl, ?_, ?_⟩
  · rw [buildEvent_impact_intensity, impactIntensity, hacc]
    rw [if_neg (by simp)]
    have hm : pyMax (([(9.8 : ℝ), 12, 8]).map fun v => |v|) 0 = 12 := by
      rw [List.map_cons, List.map_cons, List.map_cons, List.map_nil, pyMax]
      rw [abs_of_nonneg (by norm_num : (0:ℝ) ≤ 9.8),
        abs_of_nonneg (by norm_num : (0:ℝ) ≤ 12),
        abs_of_nonneg (by norm_num : (0:ℝ) ≤ 8)]
      rw [List.foldl_cons, List.foldl_cons, List.foldl_nil]
      rw [max_eq_right (by norm_num : (9.8 : ℝ) ≤ 12), max_eq_left (by norm_num : (8:ℝ) ≤ 12)]
    rw [hm]
    rw [pyRound_eval 12 2 1200 (by norm_num) (by norm_num)]
    norm_num
  · rw [buildEvent_roughness_index, hrough, hstdev]
    rw [pyRound_eval _ 2 2003 (by nlinarith) (by nlinarith)]
    norm_num
  · rw [buildEvent_roughness_index, hrough]
  · rw [buildEvent_pothole_persistence, hpers]
    rw [pyRound_eval 0 3 0 (by norm_num) (by norm_num)]
    norm_num
  · rw [buildEvent_pothole_confidence]
    rw [if_neg (by norm_num [framesWithPothole])]
  · rw [buildEvent_needs_attention, validationScore, hpers, hrough]
    rw [zero_mul, zero_add]

end Metrics

/-- **C8 (amended).**  For a trigger window whose accelerometer z samples are
`[9.8, 12.0, 8.0]` and which contains no vision records: the impact intensity
is `12.0`; the roughness index is the sample standard deviation of the
samples times 10, which rounds to `20.03` (not ≈ 20.2 as the spec says); all
damage-persistence-derived fields are zero; and `needs_attention` is decided
solely by the roughness contribution `min(100, roughness * 5) > 50`. -/
theorem C8_accel_window_metrics (start_time : ℚ) (wr : List Metrics.Reading)
    (hacc : Metrics.accZVals wr = [(9.8 : ℝ), 12, 8]) :
    (Metrics.buildEvent start_time wr [] []).impact_intensity = 12 ∧
    (Metrics.buildEvent start_time wr [] []).roughness_index = 2003 / 100 ∧
    (Metrics.buildEvent start_time wr [] []).roughness_index =
      Metrics.pyRound (Metrics.safe_stdev [(9.8 : ℝ), 12, 8] * 10) 2 ∧
    (Metrics.buildEvent start_time wr [] []).frames_with_pothole = 0 ∧
    (Metrics.buildEvent start_time wr [] []).pothole_persistence = 0 ∧
    (Metrics.buildEvent start_time wr [] []).avg_pothole_size = 0 ∧
    (Metrics.buildEvent start_time wr [] []).max_pothole_size = 0 ∧
    (Metrics.buildEvent start_time wr [] []).pothole_confidence = 0 ∧
    ((Metrics.buildEvent start_time wr [] []).needs_attention ↔
      50 < min 100 (Metrics.safe_stdev [(9.8 : ℝ), 12, 8] * 10 * 5)) :=
  Metrics.accel_window_core start_time wr hacc

/-- Witness for C8 on a concrete three-reading window. -/
theorem C8_accel_window_metrics_witness :
    Metrics.accZVals
        [Metrics.mkReading 0 9.8 1, Metrics.mkReading 1 12 0, Metrics.mkReading 2 8 0] =
      [(9.8 : ℝ), 12, 8] ∧
    ((Metrics.buildEvent 0
        [Metrics.mkReading 0 9.8 1, Metrics.mkReading 1 12 0, Metrics.mkReading 2 8 0]
        [] []).impact_intensity = 12 ∧
     (Metrics.buildEvent 0
        [Metrics.mkReading 0 9.8 1, Metrics.mkReading 1 12 0, Metrics.mkReading 2 8 0]
        [] []).roughness_index = 2003 / 100 ∧
     (Metrics.buildEvent 0
        [Metrics.mkReading 0 9.8 1, Metrics.mkReading 1 12 0, Metrics.mkReading 2 8 0]
        [] []).roughness_index =
       Metrics.pyRound (Metrics.safe_stdev [(9.8 : ℝ), 12, 8] * 10) 2 ∧
     (Metrics.buildEvent 0
        [Metrics.mkReading 0 9.8 1, Metrics.mkReading 1 12 0, Metrics.mkReading 2 8 0]
        [] []).frames_with_pothole = 0 ∧
     (Metrics.buildEvent 0
        [Metrics.mkReading 0 9.8 1, Metrics.mkReading 1 12 0, Metrics.mkReading 2 8 0]
        [] []).pothole_persistence = 0 ∧
     (Metrics.buildEvent 0
        [Metrics.mkReading 0 9.8 1, Metrics.mkReading 1 12 0, Metrics.mkReading 2 8 0]
        [] []).avg_pothole_size = 0 ∧
     (Metrics.buildEvent 0
        [Metrics.mkReading 0 9.8 1, Metrics.mkReading 1 12 0, Metrics.mkReading 2 8 0]
        [] []).max_pothole_size = 0 ∧
     (Metrics.buildEvent 0
        [Metrics.mkReading 0 9.8 1, Metrics.mkReading 1 12 0, Metrics.mkReading 2 8 0]
        [] []).pothole_confidence = 0 ∧
     ((Metrics.buildEvent 0
        [Metrics.mkReading 0 9.8 1, Metrics.mkReading 1 12 0, Metrics.mkReading 2 8 0]
        [] []).needs_attention ↔
       50 < min 100 (Metrics.safe_stdev [(9.8 : ℝ), 12, 8] * 10 * 5))) :=
  ⟨rfl, C8_accel_window_metrics 0
    [Metrics.mkReading 0 9.8 1, Metrics.mkReading 1 12 0, Metrics.mkReading 2 8 0] rfl⟩

/-- **C8 (counterexample).**  On that same window the roughness index equals
`20.03`, which differs from the spec's "approximately 20.2" by `0.17`: the
rounded field is not within `0.1` of `20.2`. -/
theorem C8_counterexample_roughness_not_20_2 :
    (Metrics.buildEvent 0
        [Metrics.mkReading 0 9.8 1, Metrics.mkReading 1 12 0, Metrics.mkReading 2 8 0]
        [] []).roughness_index = 2003 / 100 ∧
    (Metrics.buildEvent 0
        [Metrics.mkReading 0 9.8 1, Metrics.mkReading 1 12 0, Metrics.mkReading 2 8 0]
        [] []).roughness_index ≠ 202 / 10 ∧
    ¬ |(Metrics.buildEvent 0
        [Metrics.mkReading 0 9.8 1, Metrics.mkReading 1 12 0, Metrics.mkReading 2 8 0]
        [] []).roughness_index - 202 / 10| ≤ 1 / 10 := by
  obtain ⟨-, hr, -⟩ := Metrics.accel_window_core 0
    [Metrics.mkReading 0 9.8 1, Metrics.mkReading 1 12 0, Metrics.mkReading 2 8 0] rfl
  refine ⟨hr, ?_, ?_⟩
  · rw [hr]; norm_num
  · rw [hr]
    rw [abs_le]
    norm_num

namespace EventService

/-- `TILE_LAST_N_EVENTS = 20` from `event_service.py`. -/
def TILE_LAST_N_EVENTS : ℕ := 20

def kPothole : String := "pothole"

def kCongestion : String := "congestion"

def kCrack : String := "crack"

/-- One row of the `events` table as read by the aggregation query of
`update_tile_aggregate` (`model_outputs` fields flattened to the three keys
the query extracts; SQL `numeric` is exact, hence `ℚ`). -/
structure Ev where
  event_type : String
  severity : ℚ
  confidence : ℚ
  traffic_density_score : ℚ
  vehicle_count : ℤ
  total_pothole_size : ℚ
  detected_at : ℚ
  tile_id : String
deriving DecidableEq, Repr

/-- SQL `COALESCE(AVG(col), 0)`. -/
def avgQ (l : List ℚ) : ℚ := if l.isEmpty then 0 else l.sum / l.length

/-- SQL `COALESCE(MAX(col), 0)` over rationals. -/
def maxQ (l : List ℚ) : ℚ :=
  match l with
  | [] => 0
  | x :: xs => xs.foldl max x

/-- SQL `COALESCE(MAX(col), 0)` over integers. -/
def maxZ (l : List ℤ) : ℤ :=
  match l with
  | [] => 0
  | x :: xs => xs.foldl max x

/-- One row of `tile_aggregates` as written by `update_tile_aggregate`. -/
structure TileAggregate where
  tile_id : String
  total_events : ℕ
  pothole_count : ℕ
  congestion_count : ℕ
  crack_count : ℕ
  avg_severity : ℚ
  max_severity : ℚ
  avg_confidence : ℚ
  avg_congestion_score : ℚ
  avg_vehicle_count : ℚ
  max_vehicle_count : ℤ
  avg_pothole_size : ℚ
  max_pothole_size : ℚ
  last_event_at : ℚ
  center : Option (ℝ × ℝ)

/-- The SELECT aggregate of `update_tile_aggregate` evaluated on the
`last_n` rows, plus the tile center. -/
noncomputable def mkAggregate (t : String) (last_n : List Ev) : TileAggregate :=
  let congestion := last_n.filter fun e => e.event_type == kCongestion
  let pothole := last_n.filter fun e => e.event_type == kPothole
  ⟨t, last_n.length,
   pothole.length,
   congestion.length,
   (last_n.filter fun e => e.event_type == kCrack).length,
   avgQ (last_n.map fun e => e.severity),
   maxQ (last_n.map fun e => e.severity),
   avgQ (last_n.map fun e => e.confidence),
   avgQ (congestion.map fun e => e.traffic_density_score),
   avgQ (congestion.map fun e => (e.vehicle_count : ℚ)),
   maxZ (congestion.map fun e => e.vehicle_count),
   avgQ (pothole.map fun e => e.total_pothole_size),
   maxQ (pothole.map fun e => e.total_pothole_size),
   maxQ (last_n.map fun e => e.detected_at),
   Tiles.tile_id_to_center t⟩

/-- `update_tile_aggregate(tile_id)`: take the `TILE_LAST_N_EVENTS` most
recent events of the tile (ordered by `detected_at DESC`), and upsert their
aggregate; if there are no events, write nothing (`none`). -/
noncomputable def update_tile_aggregate (events : List Ev) (tile_id : String) :
    Option TileAggregate :=
  let last_n := (List.insertionSort (fun a b : Ev => b.detected_at ≤ a.detected_at)
      (events.filter fun e => e.tile_id == tile_id)).take TILE_LAST_N_EVENTS
  if last_n.isEmpty then none else some (mkAggregate tile_id last_n)

end EventService

/-- **C3.**  With 25 stored events for a tile (newest first), the recomputed
aggregate is a function of only the 20 most recent ones (`l.take 20`); and
after a strictly newer 26th event is prepended, the next recompute uses the
new event plus only the 19 previously-newest ones, so the previously
20th-newest event drops out. -/
theorem C3_tile_aggregate_last_20 (l : List EventService.Ev) (t : String)
    (hlen : l.length = 25)
    (hsort : l.Sorted fun a b => b.detected_at < a.detected_at)
    (htile : ∀ e ∈ l, e.tile_id = t) :
    EventService.update_tile_aggregate l t =
      some (EventService.mkAggregate t (l.take 20)) ∧
    ∀ e₀ : EventService.Ev, e₀.tile_id = t →
      (∀ e ∈ l, e.detected_at < e₀.detected_at) →
      EventService.update_tile_aggregate (e₀ :: l) t =
        some (EventService.mkAggregate t (e₀ :: l.take 19)) := by
  have hsort' : l.Sorted fun a b : EventService.Ev => b.detected_at ≤ a.detected_at :=
    List.Pairwise.imp (fun h => le_of_lt h) hsort
  have hfil : l.filter (fun e => e.tile_id == t) = l := by
    apply List.filter_eq_self.mpr
    intro a ha
    simp [htile a ha]
  have hins := List.Sorted.insertionSort_eq hsort'
  constructor
  · rw [EventService.update_tile_aggregate]
    rw [hfil, hins]
    have hpos : 0 < (l.take EventService.TILE_LAST_N_EVENTS).length := by
      rw [List.length_take, hlen]
      rw [EventService.TILE_LAST_N_EVENTS]
      norm_num
    have hne : (l.take EventService.TILE_LAST_N_EVENTS).isEmpty = false := by
      rw [List.isEmpty_eq_false_iff_exists_mem]
      exact List.exists_mem_of_length_pos hpos
    rw [if_neg (by rw [hne]; simp)]
    rfl
  · intro e₀ ht0 hgt
    have hfil0 : (e₀ :: l).filter (fun e => e.tile_id == t) = e₀ :: l := by
      apply List.filter_eq_self.mpr
      intro a ha
      rcases List.mem_cons.mp ha with ha | ha
      · subst ha; simp [ht0]
      · simp [htile a ha]
    have hsort0 : (e₀ :: l).Sorted fun a b : EventService.Ev =>
        b.detected_at ≤ a.detected_at := by
      rw [List.sorted_cons]
      exact ⟨fun b hb => le_of_lt (hgt b hb), hsort'⟩
    have hins0 := List.Sorted.insertionSort_eq hsort0
    rw [EventService.update_tile_aggregate]
    rw [hfil0, hins0]
    rw [show EventService.TILE_LAST_N_EVENTS = 19 + 1 from rfl, List.take_succ_cons]
    rw [if_neg (by simp)]

/-- The 25 concrete events used in the C3 witness: all on tile `T_1_2`,
timestamps strictly decreasing. -/
def c3WitnessEvents : List EventService.Ev :=
  (List.range 25).map fun (k : ℕ) =>
    ⟨EventService.kPothole, (k : ℚ), 1, 0, 0, 0, ((25 - k : ℕ) : ℚ), "T_1_2"⟩

/-- Witness for C3 on the concrete 25-event list. -/
theorem C3_tile_aggregate_last_20_witness :
    c3WitnessEvents.length = 25 ∧
    c3WitnessEvents.Sorted (fun a b => b.detected_at < a.detected_at) ∧
    (∀ e ∈ c3WitnessEvents, e.tile_id = "T_1_2") ∧
    (EventService.update_tile_aggregate c3WitnessEvents ("T_1_2") =
      some (EventService.mkAggregate ("T_1_2") (c3WitnessEvents.take 20)) ∧
    ∀ e₀ : EventService.Ev, e₀.tile_id = "T_1_2" →
      (∀ e ∈ c3WitnessEvents, e.detected_at < e₀.detected_at) →
      EventService.update_tile_aggregate (e₀ :: c3WitnessEvents) ("T_1_2") =
        some (EventService.mkAggregate ("T_1_2") (e₀ :: c3WitnessEvents.take 19))) :=
  ⟨by decide, by decide, by decide,
    C3_tile_aggregate_last_20 c3WitnessEvents ("T_1_2") (by decide) (by decide) (by decide)⟩
